import Mathlib

/-!
Verification development for the waterbutler storage providers
(RushFiles, Fedora, Google Drive institutions).

The definitions below are a shallow embedding of
`src/waterbutler/providers/{rushfiles,fedora,googledriveinstitutions}/provider.py`.
Backend HTTP traffic is modelled by explicit environment records of response
functions, and every provider operation additionally returns the ordered list
of backend calls it issued, so that call-ordering properties can be stated.
-/

/-! ## String helpers (semantics of the Python string operations used) -/

/-- Split a character list on `'/'` with Python `str.split('/')` semantics:
the empty list yields `[[]]`. -/
def splitSegs : List Char → List (List Char)
  | [] => [[]]
  | c :: cs =>
    if c = '/' then [] :: splitSegs cs
    else
      match splitSegs cs with
      | s :: ss => (c :: s) :: ss
      | [] => [[c]]

/-- Python `str.strip('/')`: drop leading and trailing `'/'` characters. -/
def stripSlashes (l : List Char) : List Char :=
  ((l.dropWhile (· == '/')).reverse.dropWhile (· == '/')).reverse

/-- Python `s.endswith('/')`. -/
def endsWithSlash (s : String) : Bool :=
  s.toList.getLast? == some '/'

/-- Python `s.endswith(suffix)` for an arbitrary suffix. -/
def pyEndsWith (s suffix : String) : Bool :=
  suffix.toList.isSuffixOf s.toList

/-- Python `needle in hay` substring test. -/
def strContains (hay needle : String) : Bool :=
  hay.toList.tails.any (fun t => needle.toList.isPrefixOf t)

/-- Python truthiness of an optional string: `None` and `''` are falsy. -/
def optStrFalsy : Option String → Bool
  | none => true
  | some s => s == ""

/-! ## Error taxonomy

Mirrors `waterbutler.core.exceptions` as used by the three providers.
`keyErr`/`indexErr`/`assertionErr` stand for the corresponding Python
built-in exceptions escaping the provider code. -/

inductive WBError where
  | notFound (resource : String)
  | invalidPath (msg : String)
  | metadataErr (msg : String) (code : Nat)
  | deleteErr (msg : String) (code : Nat)
  | uploadErr (code : Nat)
  | uploadChecksumMismatch
  | intraMoveErr (code : Nat)
  | intraCopyErr (code : Nat)
  | createFolderErr (code : Nat)
  | folderNamingConflict (name : String)
  | revisionsErr (code : Nat)
  | keyErr (key : String)
  | indexErr
  | typeErr
  | assertionErr
deriving Repr, DecidableEq

/-- Python `str()` applied to an optional string (used where the provider
interpolates a possibly-`None` identifier into a URL). -/
def pyStr : Option String → String
  | none => "None"
  | some s => s

/-! ## The virtual path model

Modelled from the spec: the `WaterButlerPath` / `WaterButlerPathPart` classes
live in `waterbutler.core.path`, which is not part of this repository sample.
Spec section 4.1: a path is an ordered sequence of parts, each holding a raw
name and an optional backend identifier; the first part is a distinguished
empty-named root part; the folder flag of the whole path comes from the
trailing slash unless the caller overrides it; identifiers are lazily
assigned (`none` before resolution). -/

structure WBPathPart where
  name : String
  id : Option String
deriving Repr, DecidableEq

structure WBPath where
  parts : List WBPathPart
  isFolder : Bool
deriving Repr, DecidableEq

/-- Modelled from the spec: the `WaterButlerPath(path, _ids=..., folder=...)`
constructor.  Splits the stripped path string on `/`, prepends the root part,
attaches the given identifiers positionally (padding with `none`), and takes
the folder flag from `folder` when supplied, else from the trailing slash. -/
def WBPath.attachIds (ids : List (Option String)) :
    Nat → List (List Char) → List WBPathPart
  | _, [] => []
  | i, seg :: segs => ⟨String.mk seg, ids.getD i none⟩ ::
      WBPath.attachIds ids (i + 1) segs

def WBPath.fromString (s : String) (ids : List (Option String))
    (folder : Option Bool) : WBPath :=
  let segs := splitSegs (stripSlashes s.toList)
  let isF := folder.getD (endsWithSlash s)
  if stripSlashes s.toList = [] then
    { parts := [⟨"", ids.getD 0 none⟩], isFolder := true }
  else
    { parts := ⟨"", ids.getD 0 none⟩ :: WBPath.attachIds ids 1 segs,
      isFolder := isF }

/-- `path.identifier`: the identifier of the final path part. -/
def WBPath.identifier (p : WBPath) : Option String :=
  (p.parts.getLast?).bind (·.id)

/-- `path.is_root`. -/
def WBPath.isRoot (p : WBPath) : Bool :=
  p.parts.length == 1

/-- `path.name`: the display name of the final part. -/
def WBPath.wbName (p : WBPath) : String :=
  ((p.parts.getLast?).map (·.name)).getD ""

/-- `path.parent.identifier`. -/
def WBPath.parentIdentifier (p : WBPath) : Option String :=
  (p.parts.dropLast.getLast?).bind (·.id)

/-- Modelled from the spec: `str(path)` materializes the path string with a
trailing slash iff the path is a folder. -/
def WBPath.render (p : WBPath) : String :=
  "/" ++ String.intercalate "/" ((p.parts.drop 1).map (·.name)) ++
    (if p.isFolder && p.parts.length > 1 then "/" else "")

/-- `path.parts[-1]._id = i`: replace the identifier of the final part. -/
def WBPath.setLastId (p : WBPath) (i : Option String) : WBPath :=
  { p with parts := p.parts.dropLast ++
      (match p.parts.getLast? with
       | some lastPart => [⟨lastPart.name, i⟩]
       | none => []) }

/-! ## RushFiles provider
Embedding of `src/waterbutler/providers/rushfiles/provider.py`. -/

namespace RushFiles

/-- One element of the `res['Data']` children listing returned by the
RushFiles `virtualfiles/{id}/children` endpoint, with the fields the
provider reads. -/
structure RfEntry where
  publicName : String
  internalName : String
  isFile : Bool
  deleted : Bool
deriving Repr, DecidableEq

/-- Backend environment: the responses the RushFiles HTTP API gives.
`children i` is the response to `GET shares/{share}/virtualfiles/{i}/children`
(`none` models a 404 status, which is in the `expects` set).
`fileInfo i` is the response to `GET shares/{share}/virtualfiles/{i}`.
`deleteStatus n` is the status of `DELETE shares/{share}/files/{n}`
(expected statuses are 200 and 404). -/
structure RfEnv where
  children : String → Option (List RfEntry)
  fileInfo : String → Option RfEntry
  deleteStatus : String → Nat

/-- Backend calls issued by the provider, in order. -/
inductive RfCall where
  | getChildren (interId : String)
  | getFile (interId : String)
  | deleteFile (internalName : String)
deriving Repr, DecidableEq

/-- `RushFilesProvider._search_inter_id`: scan `res['Data']` for the first
entry whose `PublicName` equals `child`; return its `InternalName` and index,
or `(None, None)`. -/
def searchInterId (data : List RfEntry) (child : String) :
    Option (String × Nat) :=
  (data.enum.find? fun di => di.2.publicName == child).map
    fun di => (di.2.internalName, di.1)

/-- The loop body of `RushFilesProvider.validate_path`: walk the segments,
requesting the children of the current identifier, searching each listing for
the segment name.  Returns the collected identifier list together with the
last listing and matched index (the Python loop leaves `res` and `index`
bound to their values from the final iteration). -/
def resolveLoop (env : RfEnv) (origPath : String) (cur : String)
    (ids : List (Option String)) :
    List String → (Except WBError (List (Option String) × List RfEntry × Nat)) × List RfCall
  | [] => (.error (.invalidPath origPath), [])
  | child :: rest =>
    match env.children cur with
    | none => (.error (.notFound origPath), [.getChildren cur])
    | some data =>
      match searchInterId data child with
      | none =>
        let ids' := ids ++ [none]
        if rest.isEmpty then
          (.ok (ids', data, 0), [.getChildren cur])
        else
          (.error (.notFound origPath), [.getChildren cur])
      | some (interId, index) =>
        let ids' := ids ++ [some interId]
        if optStrFalsy (some interId) then
          if rest.isEmpty then
            (.ok (ids', data, index), [.getChildren cur])
          else
            (.error (.notFound origPath), [.getChildren cur])
        else
          if rest.isEmpty then
            (.ok (ids', data, index), [.getChildren cur])
          else
            let (res, tr) := resolveLoop env origPath interId ids' rest
            (res, .getChildren cur :: tr)

/-- Whether the loop terminated with a falsy final identifier (the
`if not current_inter_id ... return RushFilesPath(path, _ids=inter_id_list)`
early return, which skips the file/folder consistency check). -/
def lastIdFalsy (ids : List (Option String)) : Bool :=
  optStrFalsy (ids.getLast?.getD none)

/-- `RushFilesProvider.validate_path`. -/
def validatePath (env : RfEnv) (shareId : String) (path : String) :
    Except WBError WBPath × List RfCall :=
  if path = "/" then
    (.ok (WBPath.fromString "/" [some shareId] (some true)), [])
  else
    let isFolder := endsWithSlash path
    let childrenPathList := (splitSegs (stripSlashes path.toList)).map String.mk
    match resolveLoop env path shareId [some shareId] childrenPathList with
    | (.error e, tr) => (.error e, tr)
    | (.ok (ids, data, index), tr) =>
      if lastIdFalsy ids then
        (.ok (WBPath.fromString path ids none), tr)
      else
        match data.get? index with
        | none => (.error .indexErr, tr)
        | some entry =>
          if entry.isFile == isFolder then
            (.error (.notFound path), tr)
          else
            (.ok (WBPath.fromString path ids (some isFolder)), tr)

/-- `RushFilesProvider.validate_v1_path`: `validate_path`, then require a
truthy final identifier, else `NotFoundError(str(rf_path))`. -/
def validateV1Path (env : RfEnv) (shareId : String) (path : String) :
    Except WBError WBPath × List RfCall :=
  match validatePath env shareId path with
  | (.error e, tr) => (.error e, tr)
  | (.ok p, tr) =>
    if optStrFalsy p.identifier then
      (.error (.notFound p.render), tr)
    else
      (.ok p, tr)

/-- `RushFilesProvider.can_intra_move` / `can_intra_copy`: `self == other`.
Provider identity comparison is external; it enters as the boolean
`sameProvider`. -/
def canIntraMove (sameProvider : Bool) (_path : Option WBPath) : Bool :=
  sameProvider

/-- `RushFilesProvider._file_metadata` (the `path.is_dir == False` branch of
`metadata`): fetch the virtual file, 404 becomes `NotFoundError`. -/
def fileMetadata (env : RfEnv) (path : WBPath) :
    Except WBError RfEntry × List RfCall :=
  match path.identifier with
  | none => (.error (.metadataErr (path.render ++ " not found") 404), [])
  | some interId =>
    match env.fileInfo interId with
    | none => (.error (.notFound path.render), [.getFile interId])
    | some entry => (.ok entry, [.getFile interId])

/-- `RushFilesProvider.delete`.  Requires a truthy identifier; refuses to
delete the root unconditionally (`confirm_delete` is accepted but never
consulted); otherwise checks the metadata's `deleted` tombstone flag and
issues the backend delete. -/
def delete (env : RfEnv) (path : WBPath) (_confirmDelete : Nat) :
    Except WBError Unit × List RfCall :=
  if optStrFalsy path.identifier then
    (.error (.notFound path.render), [])
  else if path.isRoot then
    (.error (.deleteErr "root cannot be deleted" 400), [])
  else
    match fileMetadata env path with
    | (.error e, tr) => (.error e, tr)
    | (.ok entry, tr) =>
      if !entry.deleted then
        (.error (.deleteErr "Delete permission required" 403), tr)
      else
        let st := env.deleteStatus entry.internalName
        if st == 404 then
          (.error (.notFound path.render), tr ++ [.deleteFile entry.internalName])
        else
          (.ok (), tr ++ [.deleteFile entry.internalName])

end RushFiles

/-! ## Fedora provider
Embedding of `src/waterbutler/providers/fedora/provider.py`. -/

namespace Fedora

/-- Backend environment for a Fedora 4 repository.
`head url` models the HEAD probe of `is_fedora_container`: `none` is a 404,
`some b` is a 200 whose `Link` headers contain the LDP Container relation
iff `b`.  `getBody url` is the body of the metadata GET (`none` is a 404).
`moveStatus`/`copyStatus` are the statuses of the MOVE/COPY requests
(201 expected) and `moveLoc`/`copyLoc` their `Location` headers.
`deleteStatus url` is the status of `DELETE url` (204 expected).
`putStatus url` is the status of the upload PUT (201 expected) and
`putDigest url` the content digest the backend reports for the stored bytes
(present in the response, never inspected by the provider).
`childrenOf url` lists the child resources embedded in a container's
metadata body (used by `FedoraFolderMetadata.list_children_metadata`,
which lives in `fedora/metadata.py`, outside this sample). -/
structure FEnv where
  head : String → Option Bool
  getBody : String → Option String
  moveStatus : String → String → Nat
  moveLoc : String → String → String
  copyStatus : String → String → Nat
  copyLoc : String → String → String
  deleteStatus : String → Nat
  putStatus : String → Nat
  putDigest : String → String
  childrenOf : String → List String

/-- Backend calls issued by the provider, in order. -/
inductive FCall where
  | head (url : String)
  | get (url : String)
  | put (url : String)
  | delete (url : String)
  | move (srcUrl destUrl : String)
  | copy (srcUrl destUrl : String)
deriving Repr, DecidableEq

/-- `FedoraProvider.build_repo_url`: join the repo base URL with the raw
names of every path part (the root part contributes its empty name). -/
def buildRepoUrl (repo : String) (p : WBPath) : String :=
  String.intercalate "/" (repo :: p.parts.map (·.name))

/-- `FedoraProvider.fedora_url_to_path`: strip the repo prefix and re-parse. -/
def urlToPath (repo url : String) : WBPath :=
  WBPath.fromString ("/" ++ String.mk (stripSlashes (url.drop repo.length).toList))
    [] none

/-- Metadata record for a Fedora resource (`FedoraFileMetadata` /
`FedoraFolderMetadata` wrap the raw JSON-LD body, the fedora id and the
path; the classes themselves live in `fedora/metadata.py`, outside this
sample, so the raw body stays opaque). -/
structure FMeta where
  isFolder : Bool
  raw : String
  fedoraId : String
  path : WBPath
deriving Repr, DecidableEq

/-- `FedoraProvider.is_fedora_container`: HEAD the url; 404 raises
`NotFoundError(str(url))`; otherwise report the Container link relation. -/
def isFedoraContainer (env : FEnv) (url : String) :
    Except WBError Bool × List FCall :=
  match env.head url with
  | none => (.error (.notFound url), [.head url])
  | some b => (.ok b, [.head url])

/-- `FedoraProvider.validate_v1_path`: parse, probe the url, and require the
container classification to agree with the trailing-slash folder flag. -/
def validateV1Path (env : FEnv) (repo : String) (path : String) :
    Except WBError WBPath × List FCall :=
  let wb := WBPath.fromString path [] none
  let url := buildRepoUrl repo wb
  match isFedoraContainer env url with
  | (.error e, tr) => (.error e, tr)
  | (.ok isContainer, tr) =>
    if isContainer == wb.isFolder then
      (.ok wb, tr)
    else
      (.error (.notFound path), tr)

/-- `FedoraProvider.validate_path`: any parseable path is accepted, no
backend access. -/
def validatePath (path : String) : Except WBError WBPath × List FCall :=
  (.ok (WBPath.fromString path [] none), [])

/-- `FedoraProvider.can_intra_move` / `can_intra_copy`: `self == other`. -/
def canIntraMove (sameProvider : Bool) (_path : Option WBPath) : Bool :=
  sameProvider

/-- `FedoraProvider.lookup_fedora_metadata`: HEAD to classify, then GET the
resource (containers) or its `/fcr:metadata` sidecar (binaries); a 404 on
the GET raises `NotFoundError(str(path))`. -/
def lookupFedoraMetadata (env : FEnv) (repo : String) (path : WBPath) :
    Except WBError FMeta × List FCall :=
  let fedoraId := buildRepoUrl repo path
  match isFedoraContainer env fedoraId with
  | (.error e, tr) => (.error e, tr)
  | (.ok isContainer, tr) =>
    let url := if isContainer then fedoraId else fedoraId ++ "/fcr:metadata"
    match env.getBody url with
    | none => (.error (.notFound path.render), tr ++ [.get url])
    | some raw => (.ok ⟨isContainer, raw, fedoraId, path⟩, tr ++ [.get url])

/-- `FedoraProvider.intra_copy`: COPY with a `Destination` header, recompute
the destination path from the `Location` header, fetch its metadata, and
return it together with the constant `True`. -/
def intraCopy (env : FEnv) (repo : String) (srcPath destPath : WBPath) :
    Except WBError (FMeta × Bool) × List FCall :=
  let srcUrl := buildRepoUrl repo srcPath
  let destUrl := buildRepoUrl repo destPath
  if env.copyStatus srcUrl destUrl != 201 then
    (.error (.intraCopyErr (env.copyStatus srcUrl destUrl)), [.copy srcUrl destUrl])
  else
    let newDest := urlToPath repo (env.copyLoc srcUrl destUrl)
    match lookupFedoraMetadata env repo newDest with
    | (.error e, tr) => (.error e, .copy srcUrl destUrl :: tr)
    | (.ok md, tr) => (.ok (md, true), .copy srcUrl destUrl :: tr)

/-- `FedoraProvider.intra_move`: MOVE with a `Destination` header, delete
the tombstone left at the source, recompute the destination path from the
`Location` header, fetch its metadata, and return it with the constant
`True`.  No request ever targets the prior destination entity. -/
def intraMove (env : FEnv) (repo : String) (srcPath destPath : WBPath) :
    Except WBError (FMeta × Bool) × List FCall :=
  let srcUrl := buildRepoUrl repo srcPath
  let destUrl := buildRepoUrl repo destPath
  if env.moveStatus srcUrl destUrl != 201 then
    (.error (.intraMoveErr (env.moveStatus srcUrl destUrl)), [.move srcUrl destUrl])
  else
    let tombUrl := srcUrl ++ "/fcr:tombstone"
    if env.deleteStatus tombUrl != 204 then
      (.error (.deleteErr "" (env.deleteStatus tombUrl)),
       [.move srcUrl destUrl, .delete tombUrl])
    else
      let newDest := urlToPath repo (env.moveLoc srcUrl destUrl)
      match lookupFedoraMetadata env repo newDest with
      | (.error e, tr) => (.error e, .move srcUrl destUrl :: .delete tombUrl :: tr)
      | (.ok md, tr) => (.ok (md, true), .move srcUrl destUrl :: .delete tombUrl :: tr)

/-- `FedoraProvider.upload` from the PUT onward (`handle_name_conflict` and
MIME guessing live in the core/library layers outside this sample; `path` is
the post-conflict-handling path).  `localChecksum` is the checksum of the
streamed bytes (the provider computes no checksum and reads nothing from the
PUT response body or headers).  On a 201 the metadata is fetched and
returned with the constant `True`. -/
def upload (env : FEnv) (repo : String) (path : WBPath)
    (_localChecksum : String) : Except WBError (FMeta × Bool) × List FCall :=
  let url := buildRepoUrl repo path
  if env.putStatus url != 201 then
    (.error (.uploadErr (env.putStatus url)), [.put url])
  else
    match lookupFedoraMetadata env repo path with
    | (.error e, tr) => (.error e, .put url :: tr)
    | (.ok md, tr) => (.ok (md, true), .put url :: tr)

/-- `FedoraProvider.delete`: DELETE the resource, then DELETE its tombstone.
`confirm_delete` is accepted but never consulted and there is no root
check. -/
def delete (env : FEnv) (repo : String) (path : WBPath)
    (_confirmDelete : Nat) : Except WBError Unit × List FCall :=
  let url := buildRepoUrl repo path
  if env.deleteStatus url != 204 then
    (.error (.deleteErr "" (env.deleteStatus url)), [.delete url])
  else
    let tombUrl := url ++ "/fcr:tombstone"
    if env.deleteStatus tombUrl != 204 then
      (.error (.deleteErr "" (env.deleteStatus tombUrl)), [.delete url, .delete tombUrl])
    else
      (.ok (), [.delete url, .delete tombUrl])

end Fedora

/-! ## Google Drive institutions provider
Embedding of `src/waterbutler/providers/googledriveinstitutions/provider.py`. -/

namespace Gdi

/-- `GoogleDriveInstitutionsProvider.FOLDER_MIME_TYPE`. -/
def FOLDER_MIME_TYPE : String := "application/vnd.google-apps.folder"

/-- Modelled from the spec: the fixed sentinel suffix
`googledriveinstitutions.settings.DRIVE_IGNORE_VERSION` (the settings module
is outside this sample).  Only suffix matching and concatenation are ever
applied to it, so the concrete value is immaterial. -/
def DRIVE_IGNORE_VERSION : String := "-ignoreVersion"

/-- Modelled from the spec: `os.path.splitext` (standard library).  Splits
the extension after the last dot, treating a name whose stem would be all
dots as extensionless. -/
def pySplitExt (s : String) : String × String :=
  let revl := s.toList.reverse
  let extRev := revl.takeWhile (· ≠ '.')
  match revl.dropWhile (· ≠ '.') with
  | [] => (s, "")
  | _ :: stemRev =>
    if stemRev.all (· == '.') then (s, "")
    else (String.mk stemRev.reverse, String.mk ('.' :: extRev.reverse))

/-- The Google-doc extensions special-cased by `_resolve_path_to_ids`. -/
def isGdocExt (ext : String) : Bool :=
  ext ∈ [".gdoc", ".gdraw", ".gslides", ".gsheet"]

/-- Which child query `_resolve_path_to_ids` issues: the Google-doc variant
translates the extension into a MIME filter (via `utils.get_mimetype_from_ext`,
outside this sample, so the kind carries the extension), the plain variant
filters on folder/non-folder MIME type. -/
inductive QueryKind where
  | gdocExt (ext : String)
  | plain (isFolder : Bool)
deriving Repr, DecidableEq

/-- One element of the part-dict list built by `_resolve_path_to_ids`.
These are plain Python dicts; resolved parts carry the key `name` while the
unresolved final part carries the key `title` instead, so both keys are
modelled as optional. -/
structure PartDict where
  id : Option String
  name : Option String
  title : Option String
  mimeType : String
deriving Repr, DecidableEq

/-- A raw Drive file resource with the fields the provider requests.
`ownedByMe` is a top-level JSON boolean.  The full-fields selector requests
`capabilities(canEdit)`, so `canEdit` arrives *nested* under a
`capabilities` object (`capabilitiesCanEdit` here): the response dict has
no top-level `canEdit` key, and a `data['canEdit']` lookup raises
`KeyError`. -/
structure GData where
  id : String
  name : String
  mimeType : String
  modifiedTime : String
  version : String
  md5Checksum : String
  ownedByMe : Bool
  capabilitiesCanEdit : Bool
deriving Repr, DecidableEq

/-- A raw revision resource (elements of `data['revisions']`). -/
structure GRevision where
  id : String
  modifiedTime : String
deriving Repr, DecidableEq

/-- Backend calls issued by the provider, in order. -/
inductive GCall where
  | getParents (fileId : String)
  | search (fileId : String) (childName : String) (kind : QueryKind)
  | getInfo (fileId : String)
  | update (srcId destParentId destName : String)
  | copy (srcId destParentId destName : String)
  | deleteFile (fileId : String)
  | listChildIds (folderId : String)
  | folderPage (folderId : String) (page : Nat)
  | listRevisions (fileId : String)
  | getFileMeta (fileId : String)
  | getRevisionMeta (fileId revisionId : String)
  | startUpload (createNew : Bool)
  | finishUpload (loc : String)
deriving Repr, DecidableEq

/-- Backend environment: the responses the Drive API gives.
`parentsOf` answers the `fields=parents(id)` GET (its value only feeds the
query text, so it stays opaque).  `searchChild f n k` is the first id of
`data['files']` for the child query `k` about name `n` under `f` (`none`
models the `KeyError`/`IndexError` fallback).  `info` answers the
`fields=id,name,mimeType` GET.  `moveResp`/`copyResp` answer the UPDATE/POST
requests of `intra_move`/`intra_copy` (status expected 200).
`deleteStatus` answers `DELETE files/{id}` (status expected 200).
`childIds` answers the `files(id)` listing of `_delete_folder_contents`
(`none` models the missing-key `KeyError`).  `folderPages` is the sequence
of `files` pages drained by `_folder_metadata`.  `revisionsList` answers
`GET files/{id}/revisions` with its status (200 and 403 expected).
`fileMeta` answers the full-fields file GET with its status (200, 403 and
404 expected).  `revisionMeta` answers the single-revision GET with its
status.  `docRevisions` answers the extra revisions GET of
`_handle_docs_versioning` (`none` models a JSON `null` list).
`uploadLoc` is the `Location` header of `_start_resumable_upload` and
`finishUploadResp` the JSON body of `_finish_resumable_upload`, each with
their status (200 expected). -/
structure GEnv where
  parentsOf : String → String
  searchChild : String → String → QueryKind → Option String
  info : String → String × String × String
  moveResp : String → String → String → Nat × GData
  copyResp : String → String → String → Nat × GData
  deleteStatus : String → Nat
  childIds : String → Option (List String)
  folderPages : String → List (List GData)
  revisionsList : String → Nat × List GRevision
  fileMeta : String → Nat × GData
  revisionMeta : String → String → Nat × GData
  docRevisions : String → Option (List GRevision)
  uploadLoc : Bool → Nat × String
  finishUploadResp : String → Nat × GData

/-- `_resolve_path_to_ids`, recursing over the remaining
`[name, is_folder]` pairs.  Each step records the `parents(id)` GET and the
child-query GET; on a hit it records the `id,name,mimeType` GET and appends
the resolved part; a miss on the final part appends the unresolved
`title`-keyed dict, a miss earlier raises `MetadataError(404)`. -/
def resolveLoop (env : GEnv) (origPath : String) :
    String → List PartDict → List (String × Bool) →
    (Except WBError (List PartDict)) × List GCall
  | _, acc, [] => (.ok acc, [])
  | fileId, acc, (partName, partIsFolder) :: rest =>
    let pre : List GCall := [.getParents fileId]
    let isGdocQuery := !partIsFolder && isGdocExt (pySplitExt partName).2
    let qName := if isGdocQuery then (pySplitExt partName).1 else partName
    let qKind := if isGdocQuery then QueryKind.gdocExt (pySplitExt partName).2
                 else QueryKind.plain partIsFolder
    match env.searchChild fileId qName qKind with
    | none =>
      if rest.isEmpty then
        (.ok (acc ++ [{ id := none, name := none, title := some partName,
                        mimeType := if partIsFolder then "folder" else "" }]),
         pre ++ [.search fileId qName qKind])
      else
        (.error (.metadataErr (origPath ++ " not found") 404),
         pre ++ [.search fileId qName qKind])
    | some newId =>
      let (rid, rname, rmime) := env.info newId
      let acc' := acc ++ [{ id := some rid, name := some rname, title := none,
                            mimeType := rmime }]
      let (res, tr) := resolveLoop env origPath newId acc' rest
      (res, pre ++ [.search fileId qName qKind, .getInfo newId] ++ tr)

/-- `parts[-1][1] = False`: flip the folder flag of the final
`[name, is_folder]` pair. -/
def markLastAsFile : List (String × Bool) → List (String × Bool)
  | [] => []
  | [(s, _)] => [(s, false)]
  | p :: ps => p :: markLastAsFile ps

/-- `_resolve_path_to_ids` with the default `start_at`: seed the part list
with the configured root folder dict and walk the stripped segments
(percent-decoding, an external pure data mapping, is modelled as the
identity), the final one a file unless the path ends in a slash. -/
def resolvePathToIds (env : GEnv) (rootId : String) (path : String) :
    (Except WBError (List PartDict)) × List GCall :=
  let segNames := (splitSegs (stripSlashes path.toList)).map String.mk
  let allFolders := segNames.map fun s => (s, true)
  let parts := if endsWithSlash path then allFolders
               else markLastAsFile allFolders
  resolveLoop env path rootId
    [{ id := some rootId, name := some "", title := none, mimeType := "folder" }]
    parts

/-- The `x['name']` lookups of the `zip(*[...])` comprehensions in
`validate_path` / `validate_v1_path`: the first dict without a `name` key
raises `KeyError('name')`. -/
def partNames : List PartDict → Except WBError (List String)
  | [] => .ok []
  | p :: ps =>
    match p.name with
    | none => .error (.keyErr "name")
    | some n => (partNames ps).map fun ns => n :: ns

/-- Build the returned `GoogleDriveInstitutionsPath` from the resolved part
dicts: join the names with `/`, attach the ids positionally, and take the
folder flag from a `'folder'` substring of the final part's MIME type. -/
def pathFromParts (parts : List PartDict) : Except WBError WBPath :=
  match partNames parts with
  | .error e => .error e
  | .ok names =>
    let lastMime := ((parts.getLast?).map (·.mimeType)).getD ""
    .ok (WBPath.fromString (String.intercalate "/" names)
      (parts.map (·.id)) (some (strContains lastMime "folder")))

/-- `GoogleDriveInstitutionsProvider.validate_path`. -/
def validatePath (env : GEnv) (rootId : String) (path : String) :
    Except WBError WBPath × List GCall :=
  if path = "/" then
    (.ok (WBPath.fromString "/" [some rootId] (some true)), [])
  else
    match resolvePathToIds env rootId path with
    | (.error e, tr) => (.error e, tr)
    | (.ok parts, tr) => (pathFromParts parts, tr)

/-- `GoogleDriveInstitutionsProvider.validate_v1_path`: as `validate_path`
but first require the final part to have an id and its explicit
folder/non-folder MIME classification to match the trailing slash. -/
def validateV1Path (env : GEnv) (rootId : String) (path : String) :
    Except WBError WBPath × List GCall :=
  if path = "/" then
    (.ok (WBPath.fromString "/" [some rootId] (some true)), [])
  else
    let implicitFolder := endsWithSlash path
    match resolvePathToIds env rootId path with
    | (.error e, tr) => (.error e, tr)
    | (.ok parts, tr) =>
      let lastPart := (parts.getLast?).getD
        { id := none, name := none, title := none, mimeType := "" }
      let explicitFolder := lastPart.mimeType == FOLDER_MIME_TYPE
      if lastPart.id == none || implicitFolder != explicitFolder then
        (.error (.notFound path), tr)
      else
        (pathFromParts parts, tr)

/-- `GoogleDriveInstitutionsProvider.can_intra_move`: `self == other`, no
restriction on the path. -/
def canIntraMove (sameProvider : Bool) (_path : Option WBPath) : Bool :=
  sameProvider

/-- `GoogleDriveInstitutionsProvider.can_intra_copy`:
`self == other and (path and path.is_file)` (folders are refused). -/
def canIntraCopy (sameProvider : Bool) (path : Option WBPath) : Bool :=
  sameProvider && (match path with
                   | none => false
                   | some p => !p.isFolder)

end Gdi

namespace Gdi

/-- Modelled from the spec: `utils.is_docs_file` (outside this sample)
recognizes Google-Docs-typed entries by their vendor MIME type.  Its only
call site, `_file_metadata` line 682, sits behind the line-680 `TypeError`,
so it is embedded here but unreachable from the public operations. -/
def isDocsFile (d : GData) : Bool :=
  d.mimeType.startsWith "application/vnd.google-apps." &&
    d.mimeType != FOLDER_MIME_TYPE

/-- Normalized metadata results (`GoogleDriveInstitutionsFileMetadata`,
`...FolderMetadata`, `...FileRevisionMetadata`, or the raw dict when
`raw=True`). -/
inductive MetaResult where
  | rawData (d : GData)
  | file (d : GData) (path : WBPath)
  | fileRevision (d : GData) (path : WBPath)
  | folder (d : GData) (path : WBPath) (children : List MetaResult)
deriving Repr

/-- A `metadata` answer: a single record for a file, a child listing for a
folder. -/
inductive MetadataAnswer where
  | single (m : MetaResult)
  | listing (ms : List MetaResult)
deriving Repr

/-- `GoogleDriveInstitutionsProvider._serialize_revisions`.  Its only call
sites sit behind crashing statements (`_file_metadata` line 680's
`TypeError`, `_folder_metadata`'s `item['files']` `KeyError`), so it is
embedded here but unreachable from the public operations. -/
def serializeRevisions (path : WBPath) (d : GData) (raw : Bool) : MetaResult :=
  if raw then .rawData d
  else if d.mimeType == FOLDER_MIME_TYPE then .folder d path []
  else .file d path

/-- `GoogleDriveInstitutionsProvider._handle_docs_versioning`: fetch the doc
revision list; a `null` list substitutes `etag + sentinel` as the version
(the fetched fields carry no `etag` key, so that substitution raises
`KeyError`), else the last revision id becomes the version (`[-1]` on an
empty list raises `IndexError`).  Its only call site, `_file_metadata`
line 684, sits behind the line-680 `TypeError`, so it is embedded here but
unreachable from the public operations. -/
def handleDocsVersioning (env : GEnv) (path : WBPath) (d : GData)
    (raw : Bool) : Except WBError MetaResult × List GCall :=
  match env.docRevisions d.id with
  | none => (.error (.keyErr "etag"), [.listRevisions d.id])
  | some revs =>
    match revs.getLast? with
    | none => (.error .indexErr, [.listRevisions d.id])
    | some lastRev =>
      (.ok (serializeRevisions path { d with version := lastRev.id } raw),
       [.listRevisions d.id])

/-- The per-page loop of `_folder_metadata`: each page's items are mapped
through `self._serialize_revisions(path.child(item['files']), item, ...)`,
whose `item['files']` lookup raises `KeyError` (the file dicts carry no
`files` key), so only all-empty pages complete. -/
def folderPagesLoop (folderId : String) (pageIdx : Nat) :
    List (List GData) → (Except WBError (List MetaResult)) × List GCall
  | [] => (.ok [], [])
  | page :: rest =>
    match page with
    | [] =>
      let (res, tr) := folderPagesLoop folderId (pageIdx + 1) rest
      (res, .folderPage folderId pageIdx :: tr)
    | _ :: _ => (.error (.keyErr "files"), [.folderPage folderId pageIdx])

/-- `GoogleDriveInstitutionsProvider._folder_metadata`. -/
def folderMetadata (env : GEnv) (path : WBPath) (_raw : Bool) :
    Except WBError (List MetaResult) × List GCall :=
  let fid := pyStr path.identifier
  folderPagesLoop fid 0 (env.folderPages fid)

/-- `GoogleDriveInstitutionsProvider._file_metadata`.  A revision is used
only when it is truthy and does not end with the sentinel suffix; then the
single-revision GET returns a `FileRevisionMetadata` before anything else
runs.  Otherwise the plain full-fields file GET is issued; a non-200
status raises `NotFoundError`.  On a 200 the next statement is the metrics
argument `'ownedByMe:' + data['ownedByMe'] + ', canEdit:' + data['canEdit']`
(provider.py line 680), which concatenates a `str` with the JSON boolean
`data['ownedByMe']` and raises `TypeError` — `data['canEdit']` would raise
`KeyError` next, since `canEdit` is nested under `capabilities` — so
everything after it (`can_access_revisions`, `_handle_docs_versioning`,
the `modifiedTime + sentinel` version substitution and the final return)
is unreachable. -/
def fileMetadata (env : GEnv) (path : WBPath) (revision : Option String)
    (_raw : Bool) : Except WBError MetaResult × List GCall :=
  let fid := pyStr path.identifier
  let revStr := revision.getD ""
  let revTruthy := match revision with
    | none => false
    | some r => !(r == "")
  let useRevision := revTruthy && !(pyEndsWith revStr DRIVE_IGNORE_VERSION)
  if useRevision then
    let (st, d) := env.revisionMeta fid revStr
    if st != 200 then
      (.error (.notFound path.render), [.getRevisionMeta fid revStr])
    else
      (.ok (.fileRevision d path), [.getRevisionMeta fid revStr])
  else
    let (st, _d) := env.fileMeta fid
    if st != 200 then
      (.error (.notFound path.render), [.getFileMeta fid])
    else
      (.error .typeErr, [.getFileMeta fid])

/-- `GoogleDriveInstitutionsProvider.metadata`: a strictly-`None` identifier
raises `MetadataError(404)`; folders list children, files return a single
record. -/
def metadata (env : GEnv) (path : WBPath) (raw : Bool)
    (revision : Option String) : Except WBError MetadataAnswer × List GCall :=
  match path.identifier with
  | none => (.error (.metadataErr (path.render ++ " not found") 404), [])
  | some _ =>
    if path.isFolder then
      match folderMetadata env path raw with
      | (.error e, tr) => (.error e, tr)
      | (.ok ms, tr) => (.ok (.listing ms), tr)
    else
      match fileMetadata env path revision raw with
      | (.error e, tr) => (.error e, tr)
      | (.ok m, tr) => (.ok (.single m), tr)

/-- `GoogleDriveInstitutionsProvider.revisions`: list the revisions (a 403
status, tolerated by `expects`, means the caller may not view history); when
the status is not 200 or the list is empty, fetch the raw current metadata
and synthesize the single dummy revision
`{'modifiedTime': mt, 'id': mt + DRIVE_IGNORE_VERSION}`.  The raw metadata of
a folder path is a Python list, whose `['modifiedTime']` lookup raises
`TypeError`.  For a file path the metadata fetch itself raises `TypeError`
at provider.py line 680, so the fallback errors before the dummy revision
is built and the synthesizing match arm below is unreachable. -/
def revisions (env : GEnv) (path : WBPath) :
    Except WBError (List GRevision) × List GCall :=
  match path.identifier with
  | none => (.error (.notFound path.render), [])
  | some fid =>
    let (st, revs) := env.revisionsList fid
    let hasRevisions := st == 200
    if hasRevisions && !revs.isEmpty then
      (.ok revs.reverse, [.listRevisions fid])
    else
      match metadata env path true none with
      | (.error e, tr) => (.error e, .listRevisions fid :: tr)
      | (.ok (.single (.rawData d)), tr) =>
        (.ok [{ id := d.modifiedTime ++ DRIVE_IGNORE_VERSION,
                modifiedTime := d.modifiedTime }],
         .listRevisions fid :: tr)
      | (.ok _, tr) => (.error .typeErr, .listRevisions fid :: tr)

/-- The child-deletion loop of `_delete_folder_contents`. -/
def deleteChildrenLoop (env : GEnv) :
    List String → (Except WBError Unit) × List GCall
  | [] => (.ok (), [])
  | c :: cs =>
    if env.deleteStatus c != 200 then
      (.error (.deleteErr "" (env.deleteStatus c)), [.deleteFile c])
    else
      let (res, tr) := deleteChildrenLoop env cs
      (res, .deleteFile c :: tr)

/-- `GoogleDriveInstitutionsProvider._delete_folder_contents`: list the ids
of the folder's children and delete each child in turn. -/
def deleteFolderContents (env : GEnv) (path : WBPath) :
    Except WBError Unit × List GCall :=
  if optStrFalsy path.identifier then
    (.error (.notFound path.render), [])
  else
    let fid := pyStr path.identifier
    match env.childIds fid with
    | none => (.error (.metadataErr (path.render ++ " not found") 404),
               [.listChildIds fid])
    | some cs =>
      let (res, tr) := deleteChildrenLoop env cs
      (res, .listChildIds fid :: tr)

/-- `GoogleDriveInstitutionsProvider.delete`: a falsy identifier raises
`NotFoundError`; deleting the root requires `confirm_delete == 1` and then
only empties the root's contents; otherwise the entity itself is deleted. -/
def delete (env : GEnv) (path : WBPath) (confirmDelete : Nat) :
    Except WBError Unit × List GCall :=
  if optStrFalsy path.identifier then
    (.error (.notFound path.render), [])
  else if path.isRoot then
    if confirmDelete == 1 then
      deleteFolderContents env path
    else
      (.error (.deleteErr
        "confirm_delete=1 is required for deleting root provider folder" 400),
       [])
  else
    let fid := pyStr path.identifier
    if env.deleteStatus fid != 200 then
      (.error (.deleteErr "" (env.deleteStatus fid)), [.deleteFile fid])
    else
      (.ok (), [.deleteFile fid])

/-- `GoogleDriveInstitutionsProvider.intra_move`: when the destination has a
truthy identifier, delete it first; then issue the UPDATE move request;
`created` is computed from the strictly-`None` test on the prior destination
identifier, after which the destination path's final id is overwritten with
the response id; folder destinations additionally list their children. -/
def intraMove (env : GEnv) (srcPath destPath : WBPath) :
    Except WBError (MetaResult × Bool) × List GCall :=
  let delStep :=
    if !(optStrFalsy destPath.identifier) then delete env destPath 0
    else (.ok (), [])
  match delStep with
  | (.error e, tr) => (.error e, tr)
  | (.ok (), tr0) =>
    let srcId := pyStr srcPath.identifier
    let destParent := pyStr destPath.parentIdentifier
    let (st, data) := env.moveResp srcId destParent destPath.wbName
    let call := GCall.update srcId destParent destPath.wbName
    if st != 200 then
      (.error (.intraMoveErr st), tr0 ++ [call])
    else
      let created := destPath.identifier == none
      let destPath' := destPath.setLastId (some data.id)
      if destPath.isFolder then
        match folderMetadata env destPath' false with
        | (.error e, tr) => (.error e, tr0 ++ [call] ++ tr)
        | (.ok children, tr) =>
          (.ok (.folder data destPath' children, created), tr0 ++ [call] ++ tr)
      else
        (.ok (.file data destPath', created), tr0 ++ [call])

/-- `GoogleDriveInstitutionsProvider.intra_copy`: when the destination has a
truthy identifier, delete it first; then issue the copy POST (whose `throws`
is, as in the code, `IntraMoveError`); the destination is always a file and
`created` is the strictly-`None` test on the prior destination identifier. -/
def intraCopy (env : GEnv) (srcPath destPath : WBPath) :
    Except WBError (MetaResult × Bool) × List GCall :=
  let delStep :=
    if !(optStrFalsy destPath.identifier) then delete env destPath 0
    else (.ok (), [])
  match delStep with
  | (.error e, tr) => (.error e, tr)
  | (.ok (), tr0) =>
    let srcId := pyStr srcPath.identifier
    let destParent := pyStr destPath.parentIdentifier
    let (st, data) := env.copyResp srcId destParent destPath.wbName
    let call := GCall.copy srcId destParent destPath.wbName
    if st != 200 then
      (.error (.intraMoveErr st), tr0 ++ [call])
    else
      (.ok (.file data destPath, destPath.identifier == none), tr0 ++ [call])

/-- `GoogleDriveInstitutionsProvider.upload`: assert the path is a file,
start and finish the resumable upload, then compare the backend-reported
`md5Checksum` against the md5 computed by the write-through hash stream
(`localMd5`): a mismatch raises `UploadChecksumMismatchError`, otherwise the
path's final id is overwritten with the response id and the metadata is
returned with `created` from the strictly-`None` prior-identifier test. -/
def upload (env : GEnv) (path : WBPath) (localMd5 : String) :
    Except WBError (MetaResult × Bool) × List GCall :=
  if path.isFolder then
    (.error .assertionErr, [])
  else
    let createNew := optStrFalsy path.identifier
    let (st1, loc) := env.uploadLoc createNew
    if st1 != 200 then
      (.error (.uploadErr st1), [.startUpload createNew])
    else
      let (st2, data) := env.finishUploadResp loc
      if st2 != 200 then
        (.error (.uploadErr st2), [.startUpload createNew, .finishUpload loc])
      else if data.md5Checksum != localMd5 then
        (.error .uploadChecksumMismatch, [.startUpload createNew, .finishUpload loc])
      else
        let created := path.identifier == none
        let path' := path.setLastId (some data.id)
        (.ok (.file data path', created), [.startUpload createNew, .finishUpload loc])

end Gdi

/-! ## Concrete environments and inputs used by witnesses and
counterexamples -/

def dummyGData : Gdi.GData :=
  ⟨"id0", "name0", "text/plain", "2021-11-18T15:44:36.4329227Z", "v1",
   "md5a", true, true⟩

def baseGEnv : Gdi.GEnv :=
  { parentsOf := fun _ => "parentsResp"
    searchChild := fun _ _ _ => none
    info := fun _ => ("", "", "")
    moveResp := fun _ _ _ => (200, dummyGData)
    copyResp := fun _ _ _ => (200, dummyGData)
    deleteStatus := fun _ => 200
    childIds := fun _ => some []
    folderPages := fun _ => [[]]
    revisionsList := fun _ => (403, [])
    fileMeta := fun _ => (200, dummyGData)
    revisionMeta := fun _ _ => (200, dummyGData)
    docRevisions := fun _ => some [⟨"rev1", "mt1"⟩]
    uploadLoc := fun _ => (200, "loc1")
    finishUploadResp := fun _ => (200, dummyGData) }

def baseFEnv : Fedora.FEnv :=
  { head := fun _ => some false
    getBody := fun _ => some "rawBody"
    moveStatus := fun _ _ => 201
    moveLoc := fun _ d => d
    copyStatus := fun _ _ => 201
    copyLoc := fun _ d => d
    deleteStatus := fun _ => 204
    putStatus := fun _ => 201
    putDigest := fun _ => "backendDigest"
    childrenOf := fun _ => [] }

def baseRfEnv : RushFiles.RfEnv :=
  { children := fun _ => some []
    fileInfo := fun _ => none
    deleteStatus := fun _ => 200 }

/-- Fedora environment where every resource probes as a container. -/
def c1FEnv : Fedora.FEnv := { baseFEnv with head := fun _ => some true }

/-- Drive environment where `x` is a folder named `x` with id `xidA`. -/
def c1GEnvFolder : Gdi.GEnv :=
  { baseGEnv with
    searchChild := fun _ n k =>
      if k == Gdi.QueryKind.plain true && n == "x" then some "xidA" else none
    info := fun _ => ("xidA", "x", Gdi.FOLDER_MIME_TYPE) }

/-- Drive environment where `x` is a plain file named `x` with id `yidA`. -/
def c1GEnvFile : Gdi.GEnv :=
  { baseGEnv with
    searchChild := fun _ n k =>
      if k == Gdi.QueryKind.plain false && n == "x" then some "yidA" else none
    info := fun _ => ("yidA", "x", "text/plain") }

/-- The single RushFiles child listing entry used by the C1 witness: a
folder named `x`. -/
def c1RfEntry : RushFiles.RfEntry := ⟨"x", "xidR", false, false⟩

/-- RushFiles environment whose root listing holds just `c1RfEntry`. -/
def c1RfEnv : RushFiles.RfEnv :=
  { baseRfEnv with children := fun _ => some [c1RfEntry] }

/-- A resolved source file path `/a`. -/
def srcPathA : WBPath := ⟨[⟨"", some "rootA"⟩, ⟨"a", some "srcId"⟩], false⟩

/-- A Fedora-style source path `/a` (no identifiers). -/
def srcPathF : WBPath := ⟨[⟨"", none⟩, ⟨"a", none⟩], false⟩

/-- A destination file path `/b` that already carries an identifier. -/
def destPathOld : WBPath := ⟨[⟨"", some "rootA"⟩, ⟨"b", some "destId"⟩], false⟩

/-- A destination file path `/b` with no identifier. -/
def destPathNew : WBPath := ⟨[⟨"", some "rootA"⟩, ⟨"b", none⟩], false⟩

/-- The root folder path with the configured identifier attached. -/
def rootPathA : WBPath := ⟨[⟨"", some "rootA"⟩], true⟩

/-- The Fedora root folder path (`WaterButlerPath('/')`). -/
def rootPathF : WBPath := ⟨[⟨"", none⟩], true⟩

/-- A resolved file path `/f.txt`. -/
def filePathA : WBPath := ⟨[⟨"", some "rootA"⟩, ⟨"f.txt", some "fidA"⟩], false⟩

/-- A Fedora file path `/f.txt` (no identifiers). -/
def filePathF : WBPath := ⟨[⟨"", none⟩, ⟨"f.txt", none⟩], false⟩

/-- Drive environment whose root folder has two children `c1`, `c2`. -/
def c6GEnv : Gdi.GEnv :=
  { baseGEnv with childIds := fun _ => some ["c1", "c2"] }

/-- Drive environment whose upload acknowledgment reports an md5 of
`"md5backend"`. -/
def c7GEnv : Gdi.GEnv :=
  { baseGEnv with
    finishUploadResp := fun _ =>
      (200, { dummyGData with md5Checksum := "md5backend" }) }

/-- RushFiles environment whose root listing holds a single file entry
`hoge.txt` marked deleted. -/
def c9RfEnv : RushFiles.RfEnv :=
  { baseRfEnv with
    children := fun i =>
      if i == "share1" then some [⟨"hoge.txt", "hogeId", true, true⟩]
      else none }

/-! ## Helper lemmas about the path-string operations -/

theorem dropWhile_eq_self_of_none (p : Char → Bool) :
    ∀ (l : List Char), (∀ a ∈ l, p a = false) → l.dropWhile p = l
  | [], _ => rfl
  | a :: l, h => by
    simp [List.dropWhile_cons, h a (by simp),
          dropWhile_eq_self_of_none p l (fun b hb => h b (by simp [hb]))]

theorem splitSegs_no_slash :
    ∀ (l : List Char), (∀ c ∈ l, c ≠ '/') → splitSegs l = [l]
  | [], _ => rfl
  | c :: l, h => by
    have hc : c ≠ '/' := h c (by simp)
    have ih := splitSegs_no_slash l (fun a ha => h a (by simp [ha]))
    simp [splitSegs, hc, ih]

theorem toList_ne_nil (x : String) (hx : x ≠ "") : x.toList ≠ [] := by
  intro hh
  apply hx
  cases x with
  | mk d =>
    simp only [String.toList] at hh
    simp [hh]

theorem bool_eq_false_of_ne (c d : Char) (h : c ≠ d) : (c == d) = false := by
  simpa using h

theorem stripSlashes_file (xl : List Char) (h : ∀ c ∈ xl, c ≠ '/') :
    stripSlashes ('/' :: xl) = xl := by
  have h1 : ∀ c ∈ xl, (c == '/') = false := fun c hc => by simpa using h c hc
  have h2 : ∀ c ∈ xl.reverse, (c == '/') = false := fun c hc =>
    h1 c (by simpa using hc)
  simp [stripSlashes, List.dropWhile_cons,
        dropWhile_eq_self_of_none _ _ h1, dropWhile_eq_self_of_none _ _ h2]

theorem stripSlashes_folder (xl : List Char) (h : ∀ c ∈ xl, c ≠ '/') :
    stripSlashes ('/' :: (xl ++ ['/'])) = xl := by
  cases xl with
  | nil => rfl
  | cons a as =>
    have h1 : ∀ c ∈ (a :: as), (c == '/') = false := fun c hc => by
      simpa using h c hc
    have h2 : ∀ c ∈ (a :: as).reverse, (c == '/') = false := fun c hc =>
      h1 c (List.mem_reverse.mp hc)
    have ha : (a == '/') = false := h1 a (List.mem_cons_self a as)
    show ((('/' :: ((a :: as) ++ ['/'])).dropWhile (· == '/')).reverse.dropWhile
      (· == '/')).reverse = a :: as
    rw [List.dropWhile_cons]
    simp only [beq_self_eq_true, if_true]
    rw [List.cons_append, List.dropWhile_cons, ha]
    simp only [Bool.false_eq_true, if_false]
    have hrev : (a :: (as ++ ['/'])).reverse = '/' :: (a :: as).reverse := by
      rw [← List.cons_append, List.reverse_append]
      rfl
    rw [hrev, List.dropWhile_cons]
    simp only [beq_self_eq_true, if_true]
    rw [dropWhile_eq_self_of_none _ _ h2, List.reverse_reverse]

theorem getLast?_no_slash (xl : List Char) (hne : xl ≠ [])
    (h : ∀ c ∈ xl, c ≠ '/') : ∃ a, xl.getLast? = some a ∧ (a == '/') = false := by
  refine ⟨xl.getLast hne, List.getLast?_eq_getLast_of_ne_nil hne, ?_⟩
  simpa using h _ (List.getLast_mem hne)

theorem string_mk_toList (x : String) : String.mk x.toList = x := by
  cases x
  rfl

theorem endsWithSlash_noslash (x : String) (hx : x ≠ "")
    (h : ∀ c ∈ x.toList, c ≠ '/') : endsWithSlash ("/" ++ x) = false := by
  obtain ⟨a, ha, ha'⟩ := getLast?_no_slash x.toList (toList_ne_nil x hx) h
  unfold endsWithSlash
  rw [show ("/" ++ x).toList = '/' :: x.toList by simp [String.toList]]
  cases hxl : x.toList with
  | nil => exact absurd hxl (toList_ne_nil x hx)
  | cons y ys =>
    rw [hxl] at ha
    rw [List.getLast?_cons_cons, ha]
    simpa using ha'

theorem endsWithSlash_slash (x : String) : endsWithSlash ("/" ++ x ++ "/") = true := by
  unfold endsWithSlash
  rw [show ("/" ++ x ++ "/").toList = '/' :: (x.toList ++ ['/']) by
    simp [String.toList]]
  rw [List.getLast?_cons, List.getLast?_concat]
  rfl

theorem fromString_noslash (x : String) (ids : List (Option String))
    (folder : Option Bool) (hx : x ≠ "") (h : ∀ c ∈ x.toList, c ≠ '/') :
    WBPath.fromString ("/" ++ x) ids folder =
      ⟨[⟨"", ids.getD 0 none⟩, ⟨x, ids.getD 1 none⟩], folder.getD false⟩ := by
  have htl : ("/" ++ x).toList = '/' :: x.toList := by simp [String.toList]
  have hne := toList_ne_nil x hx
  have hstrip : stripSlashes (("/" ++ x).toList) = x.toList := by
    rw [htl]; exact stripSlashes_file _ h
  simp only [WBPath.fromString, hstrip, splitSegs_no_slash _ h,
             endsWithSlash_noslash x hx h, hne, if_false, WBPath.attachIds,
             string_mk_toList]

theorem fromString_slash (x : String) (ids : List (Option String))
    (folder : Option Bool) (hx : x ≠ "") (h : ∀ c ∈ x.toList, c ≠ '/') :
    WBPath.fromString ("/" ++ x ++ "/") ids folder =
      ⟨[⟨"", ids.getD 0 none⟩, ⟨x, ids.getD 1 none⟩], folder.getD true⟩ := by
  have htl : ("/" ++ x ++ "/").toList = '/' :: (x.toList ++ ['/']) := by
    simp [String.toList]
  have hne := toList_ne_nil x hx
  have hstrip : stripSlashes (("/" ++ x ++ "/").toList) = x.toList := by
    rw [htl]; exact stripSlashes_folder _ h
  simp only [WBPath.fromString, hstrip, splitSegs_no_slash _ h,
             endsWithSlash_slash, WBPath.attachIds, string_mk_toList]
  simp only [if_neg hne]

theorem slash_append_ne_root (x : String) (hx : x ≠ "") : ("/" ++ x) ≠ "/" := by
  intro he
  have := congrArg String.toList he
  rw [show ("/" ++ x).toList = '/' :: x.toList by simp [String.toList]] at this
  exact toList_ne_nil x hx (by simpa using this)

theorem slash_wrap_ne_root (x : String) : ("/" ++ x ++ "/") ≠ "/" := by
  intro he
  have := congrArg String.toList he
  rw [show ("/" ++ x ++ "/").toList = '/' :: (x.toList ++ ['/']) by
    simp [String.toList]] at this
  simp at this

theorem two_seg_ne_root (a b : String) : ("/" ++ a ++ "/" ++ b) ≠ "/" := by
  intro he
  have := congrArg String.toList he
  rw [show ("/" ++ a ++ "/" ++ b).toList = '/' :: (a.toList ++ '/' :: b.toList) by
    simp [String.toList]] at this
  simp at this

theorem splitSegs_append_mid (bl : List Char) :
    ∀ (al : List Char), (∀ c ∈ al, c ≠ '/') →
      splitSegs (al ++ '/' :: bl) = al :: splitSegs bl
  | [], _ => by simp [splitSegs]
  | c :: cs, h => by
    have hc : c ≠ '/' := h c (by simp)
    have ih := splitSegs_append_mid bl cs (fun a ha => h a (by simp [ha]))
    simp [splitSegs, hc, ih]

theorem stripSlashes_mid (al bl : List Char)
    (ha : ∀ c ∈ al, c ≠ '/') (hb : ∀ c ∈ bl, c ≠ '/')
    (hane : al ≠ []) (hbne : bl ≠ []) :
    stripSlashes ('/' :: (al ++ '/' :: bl)) = al ++ '/' :: bl := by
  obtain ⟨a1, as, rfl⟩ : ∃ a1 as, al = a1 :: as := by
    cases al with
    | nil => exact absurd rfl hane
    | cons a1 as => exact ⟨a1, as, rfl⟩
  obtain ⟨b1, bs, rfl⟩ : ∃ b1 bs, bl = b1 :: bs := by
    cases bl with
    | nil => exact absurd rfl hbne
    | cons b1 bs => exact ⟨b1, bs, rfl⟩
  have ha1 : (a1 == '/') = false := by simpa using ha a1 (by simp)
  unfold stripSlashes
  rw [List.dropWhile_cons]
  simp only [beq_self_eq_true, if_true]
  rw [List.cons_append, List.dropWhile_cons, ha1]
  simp only [Bool.false_eq_true, if_false]
  have hrev : (a1 :: (as ++ '/' :: (b1 :: bs))).reverse =
      (b1 :: bs).reverse ++ '/' :: (a1 :: as).reverse := by
    rw [← List.cons_append, List.reverse_append]
    simp
  rw [hrev]
  obtain ⟨c1, cs, hc⟩ : ∃ c1 cs, (b1 :: bs).reverse = c1 :: cs := by
    have : (b1 :: bs).reverse ≠ [] := by simp
    cases hrr : (b1 :: bs).reverse with
    | nil => exact absurd hrr this
    | cons c1 cs => exact ⟨c1, cs, rfl⟩
  have hc1 : (c1 == '/') = false := by
    have : c1 ∈ (b1 :: bs).reverse := by rw [hc]; simp
    simpa using hb c1 (List.mem_reverse.mp this)
  rw [hc, List.cons_append, List.dropWhile_cons, hc1]
  simp only [Bool.false_eq_true, if_false]
  rw [← List.cons_append, ← hc, ← hrev, List.reverse_reverse]

/-! ## C1 -/

/-- C1: for each of the three providers and every single-segment path
string `/x` whose target exists, `validate_v1_path` fails with
`NotFoundError` when the backend classifies the target as a folder but the
path has no trailing slash, and succeeds when the classification matches;
symmetrically `/x/` fails when `x` is a file.  Fedora classifies by the
container HEAD probe (`b`), Google Drive by the folder-filtered child
queries, RushFiles by the `IsFile` field of the matched listing entry. -/
theorem c1_validate_v1_path_classification
    (x : String) (hx : x ≠ "") (h : ∀ c ∈ x.toList, c ≠ '/')
    (hgd : Gdi.isGdocExt (Gdi.pySplitExt x).2 = false)
    (fenv : Fedora.FEnv) (repo : String) (b : Bool)
    (hf : fenv.head (String.intercalate "/" [repo, "", x]) = some b)
    (gf gg : Gdi.GEnv) (rootId xid rid rnm yid rid2 rnm2 mime2 : String)
    (hg1 : gf.searchChild rootId x (.plain false) = none)
    (hg2 : gf.searchChild rootId x (.plain true) = some xid)
    (hg3 : gf.info xid = (rid, rnm, Gdi.FOLDER_MIME_TYPE))
    (hg4 : gg.searchChild rootId x (.plain false) = some yid)
    (hg5 : gg.info yid = (rid2, rnm2, mime2))
    (hm2 : mime2 ≠ Gdi.FOLDER_MIME_TYPE)
    (hg6 : gg.searchChild rootId x (.plain true) = none)
    (renv : RushFiles.RfEnv) (shareId rxid : String)
    (L : List RushFiles.RfEntry) (i : Nat) (e : RushFiles.RfEntry)
    (hr1 : renv.children shareId = some L)
    (hr2 : RushFiles.searchInterId L x = some (rxid, i))
    (hr3 : L[i]? = some e)
    (hr4 : rxid ≠ "") :
    (b = true → (Fedora.validateV1Path fenv repo ("/" ++ x)).1 =
      .error (.notFound ("/" ++ x))) ∧
    (b = false → ∃ p, (Fedora.validateV1Path fenv repo ("/" ++ x)).1 = .ok p ∧
      p.isFolder = false) ∧
    (b = false → (Fedora.validateV1Path fenv repo ("/" ++ x ++ "/")).1 =
      .error (.notFound ("/" ++ x ++ "/"))) ∧
    (b = true → ∃ p, (Fedora.validateV1Path fenv repo ("/" ++ x ++ "/")).1 =
      .ok p ∧ p.isFolder = true) ∧
    ((Gdi.validateV1Path gf rootId ("/" ++ x)).1 =
      .error (.notFound ("/" ++ x))) ∧
    (∃ p, (Gdi.validateV1Path gf rootId ("/" ++ x ++ "/")).1 = .ok p ∧
      p.isFolder = true) ∧
    (∃ p, (Gdi.validateV1Path gg rootId ("/" ++ x)).1 = .ok p) ∧
    ((Gdi.validateV1Path gg rootId ("/" ++ x ++ "/")).1 =
      .error (.notFound ("/" ++ x ++ "/"))) ∧
    (e.isFile = false → (RushFiles.validateV1Path renv shareId ("/" ++ x)).1 =
      .error (.notFound ("/" ++ x))) ∧
    (e.isFile = false → ∃ p,
      (RushFiles.validateV1Path renv shareId ("/" ++ x ++ "/")).1 = .ok p ∧
      p.isFolder = true) ∧
    (e.isFile = true → ∃ p,
      (RushFiles.validateV1Path renv shareId ("/" ++ x)).1 = .ok p ∧
      p.isFolder = false) ∧
    (e.isFile = true →
      (RushFiles.validateV1Path renv shareId ("/" ++ x ++ "/")).1 =
      .error (.notFound ("/" ++ x ++ "/"))) := by
  have hroot1 : ("/" ++ x) ≠ "/" := slash_append_ne_root x hx
  have hroot2 : ("/" ++ x ++ "/") ≠ "/" := slash_wrap_ne_root x
  have hstrip1 : stripSlashes (("/" ++ x).toList) = x.toList := by
    rw [show ("/" ++ x).toList = '/' :: x.toList by simp [String.toList]]
    exact stripSlashes_file _ h
  have hstrip2 : stripSlashes (("/" ++ x ++ "/").toList) = x.toList := by
    rw [show ("/" ++ x ++ "/").toList = '/' :: (x.toList ++ ['/']) by
      simp [String.toList]]
    exact stripSlashes_folder _ h
  refine ⟨?_, ?_, ?_, ?_, ?_, ?_, ?_, ?_, ?_, ?_, ?_, ?_⟩
  · intro hb
    unfold Fedora.validateV1Path Fedora.isFedoraContainer
    simp only [fromString_noslash x [] none hx h, Fedora.buildRepoUrl]
    simp [hf, hb]
  · intro hb
    unfold Fedora.validateV1Path Fedora.isFedoraContainer
    simp only [fromString_noslash x [] none hx h, Fedora.buildRepoUrl]
    simp [hf, hb]
  · intro hb
    unfold Fedora.validateV1Path Fedora.isFedoraContainer
    simp only [fromString_slash x [] none hx h, Fedora.buildRepoUrl]
    simp [hf, hb]
  · intro hb
    unfold Fedora.validateV1Path Fedora.isFedoraContainer
    simp only [fromString_slash x [] none hx h, Fedora.buildRepoUrl]
    simp [hf, hb]
  · unfold Gdi.validateV1Path Gdi.resolvePathToIds
    rw [if_neg hroot1]
    simp only [hstrip1, splitSegs_no_slash _ h, List.map, string_mk_toList,
               endsWithSlash_noslash x hx h, Bool.false_eq_true, if_false,
               Gdi.markLastAsFile, Gdi.resolveLoop, hgd, Bool.not_false,
               Bool.and_false, Bool.false_and, Bool.and_true, if_true]
    simp [hg1]
  · unfold Gdi.validateV1Path Gdi.resolvePathToIds
    rw [if_neg hroot2]
    simp only [hstrip2, splitSegs_no_slash _ h, List.map, string_mk_toList,
               endsWithSlash_slash, if_true, Gdi.resolveLoop,
               Bool.not_true, Bool.false_and, if_false]
    simp only [Bool.false_eq_true, if_false, hg2, hg3]
    simp only [List.isEmpty_nil, List.singleton_append, List.cons_append,
               List.nil_append, List.append_nil]
    simp only [Gdi.pathFromParts, Gdi.partNames]
    simp only [List.getLast?_cons_cons, List.getLast?_singleton]
    simp only [Option.getD_some]
    simp only [beq_self_eq_true, bne_self_eq_false, Bool.or_false,
               Bool.false_or]
    simp
    refine ⟨_, rfl, ?_⟩
    rw [WBPath.fromString]
    split
    · rfl
    · simp
      decide
  · unfold Gdi.validateV1Path Gdi.resolvePathToIds
    rw [if_neg hroot1]
    simp only [hstrip1, splitSegs_no_slash _ h, List.map, string_mk_toList,
               endsWithSlash_noslash x hx h, Bool.false_eq_true, if_false,
               Gdi.markLastAsFile, Gdi.resolveLoop, hgd, Bool.not_false,
               Bool.and_false, Bool.false_and, Bool.and_true, Bool.true_and,
               if_true]
    rw [hg4]
    simp only [hg5]
    simp only [List.isEmpty_nil, List.singleton_append, List.cons_append,
               List.nil_append, List.append_nil]
    simp only [Gdi.pathFromParts, Gdi.partNames]
    simp only [List.getLast?_cons_cons, List.getLast?_singleton]
    simp only [Option.getD_some]
    simp [hm2, Except.map]
  · unfold Gdi.validateV1Path Gdi.resolvePathToIds
    rw [if_neg hroot2]
    simp only [hstrip2, splitSegs_no_slash _ h, List.map, string_mk_toList,
               endsWithSlash_slash, if_true, Gdi.resolveLoop,
               Bool.not_true, Bool.false_and, Bool.false_eq_true, if_false]
    simp [hg6]
  · intro hisf
    unfold RushFiles.validateV1Path RushFiles.validatePath
    rw [if_neg hroot1]
    simp only [hstrip1, splitSegs_no_slash _ h, List.map, string_mk_toList,
               RushFiles.resolveLoop, hr1, hr2, optStrFalsy, hr4,
               endsWithSlash_noslash x hx h]
    simp only [List.isEmpty_nil, if_true, beq_iff_eq, hr4, if_false,
               RushFiles.lastIdFalsy]
    simp [optStrFalsy, hr4, hr3, hisf]
  · intro hisf
    unfold RushFiles.validateV1Path RushFiles.validatePath
    rw [if_neg hroot2]
    simp only [hstrip2, splitSegs_no_slash _ h, List.map, string_mk_toList,
               RushFiles.resolveLoop, hr1, hr2, optStrFalsy, hr4,
               endsWithSlash_slash]
    simp only [List.isEmpty_nil, if_true, beq_iff_eq, hr4, if_false,
               RushFiles.lastIdFalsy]
    simp only [fromString_slash x _ _ hx h]
    simp [hr3, hisf, hr4, WBPath.identifier]
  · intro hisf
    unfold RushFiles.validateV1Path RushFiles.validatePath
    rw [if_neg hroot1]
    simp only [hstrip1, splitSegs_no_slash _ h, List.map, string_mk_toList,
               RushFiles.resolveLoop, hr1, hr2, optStrFalsy, hr4,
               endsWithSlash_noslash x hx h]
    simp only [List.isEmpty_nil, if_true, beq_iff_eq, hr4, if_false,
               RushFiles.lastIdFalsy]
    simp only [fromString_noslash x _ _ hx h]
    simp [hr3, hisf, hr4, WBPath.identifier]
  · intro hisf
    unfold RushFiles.validateV1Path RushFiles.validatePath
    rw [if_neg hroot2]
    simp only [hstrip2, splitSegs_no_slash _ h, List.map, string_mk_toList,
               RushFiles.resolveLoop, hr1, hr2, optStrFalsy, hr4,
               endsWithSlash_slash]
    simp only [List.isEmpty_nil, if_true, beq_iff_eq, hr4, if_false,
               RushFiles.lastIdFalsy]
    simp [optStrFalsy, hr4, hr3, hisf]

/-- Witness for C1 at the concrete environments: `x` is a folder for all
three backends, so `validate_v1_path('/x')` fails with `NotFoundError` for
each provider. -/
theorem c1_validate_v1_path_classification_witness :
    (Gdi.validateV1Path c1GEnvFolder "root" ("/" ++ "x")).1 =
      .error (.notFound ("/" ++ "x")) ∧
    (RushFiles.validateV1Path c1RfEnv "share1" ("/" ++ "x")).1 =
      .error (.notFound ("/" ++ "x")) ∧
    (Fedora.validateV1Path c1FEnv "r" ("/" ++ "x")).1 =
      .error (.notFound ("/" ++ "x")) := by
  have H := c1_validate_v1_path_classification "x" (by decide) (by decide)
    (by decide) c1FEnv "r" true rfl c1GEnvFolder c1GEnvFile "root" "xidA"
    "xidA" "x" "yidA" "yidA" "x" "text/plain" rfl rfl rfl rfl rfl (by decide)
    rfl c1RfEnv "share1" "xidR" [c1RfEntry] 0 c1RfEntry rfl rfl rfl
    (by decide)
  exact ⟨H.2.2.2.2.1, H.2.2.2.2.2.2.2.2.1 rfl, H.1 rfl⟩

/-! ## C2 -/

/-- C2 counterexample: Fedora's `validate_path('/')` returns a root path
whose identifier is `None` — not a configured root/share identifier (the
Fedora provider has none), refuting the claim for "every provider". -/
theorem c2_fedora_root_has_no_identifier :
    (Fedora.validatePath "/").1 = .ok ⟨[⟨"", none⟩], true⟩ ∧
    WBPath.identifier ⟨[⟨"", none⟩], true⟩ = none := by
  exact ⟨rfl, rfl⟩

/-- C2 (amended): `validate_path('/')` always succeeds for every provider
with zero backend calls and returns a folder path; for RushFiles and Google
Drive institutions its identifier is the configured share/root identifier,
while Fedora's root path carries no identifier. -/
theorem c2_validate_path_root
    (renv : RushFiles.RfEnv) (genv : Gdi.GEnv) (shareId rootId : String) :
    RushFiles.validatePath renv shareId "/" =
      (.ok ⟨[⟨"", some shareId⟩], true⟩, []) ∧
    Gdi.validatePath genv rootId "/" =
      (.ok ⟨[⟨"", some rootId⟩], true⟩, []) ∧
    Fedora.validatePath "/" = (.ok ⟨[⟨"", none⟩], true⟩, []) ∧
    WBPath.identifier ⟨[⟨"", some shareId⟩], true⟩ = some shareId ∧
    WBPath.identifier ⟨[⟨"", some rootId⟩], true⟩ = some rootId := by
  refine ⟨?_, ?_, rfl, rfl, rfl⟩
  · unfold RushFiles.validatePath
    rfl
  · unfold Gdi.validatePath
    rfl

/-! ## C3 -/

/-- C3: `validate_v1_path` rejects a null final identifier with
`NotFoundError` (both providers), and RushFiles' `validate_path` returns
successfully with a null final identifier; but the Google Drive
institutions `validate_path` crashes with `KeyError('name')` instead of
returning, because `_resolve_path_to_ids` labels the unresolved final part
with the key `title` while `validate_path` reads `x['name']` — evaluated
here at the concrete backend where `newfile.txt` does not exist. -/
theorem c3_null_final_identifier :
    (Gdi.validatePath baseGEnv "root" "/newfile.txt").1 =
      .error (.keyErr "name") ∧
    (Gdi.validateV1Path baseGEnv "root" "/newfile.txt").1 =
      .error (.notFound "/newfile.txt") ∧
    (RushFiles.validatePath baseRfEnv "share1" "/newfile.txt").1 =
      .ok ⟨[⟨"", some "share1"⟩, ⟨"newfile.txt", none⟩], false⟩ ∧
    (RushFiles.validateV1Path baseRfEnv "share1" "/newfile.txt").1 =
      .error (.notFound "/newfile.txt") := by
  exact ⟨rfl, rfl, rfl, rfl⟩

/-! ## C4 -/

/-- Every backend call of the `_folder_metadata` page loop is a page GET. -/
theorem gdi_folderPagesLoop_calls (fid : String) :
    ∀ (pages : List (List Gdi.GData)) (idx : Nat)
      (c : Gdi.GCall), c ∈ (Gdi.folderPagesLoop fid idx pages).2 →
      ∃ n, c = .folderPage fid n
  | [], _, c, hc => by simp [Gdi.folderPagesLoop] at hc
  | page :: rest, idx, c, hc => by
    cases page with
    | nil =>
      simp only [Gdi.folderPagesLoop, List.mem_cons] at hc
      rcases hc with rfl | hc
      · exact ⟨idx, rfl⟩
      · exact gdi_folderPagesLoop_calls fid rest (idx + 1) c hc
    | cons d ds =>
      simp only [Gdi.folderPagesLoop, List.mem_cons, List.not_mem_nil,
                 or_false] at hc
      exact ⟨idx, hc⟩

/-- Every backend call of `_folder_metadata` is a page GET. -/
theorem gdi_folderMetadata_calls (env : Gdi.GEnv) (p : WBPath) (raw : Bool)
    (c : Gdi.GCall) (hc : c ∈ (Gdi.folderMetadata env p raw).2) :
    ∃ fid n, c = .folderPage fid n := by
  unfold Gdi.folderMetadata at hc
  obtain ⟨n, hn⟩ := gdi_folderPagesLoop_calls _ _ _ c hc
  exact ⟨_, n, hn⟩

/-- With no prior destination identifier, `intra_move` issues only the
UPDATE move request and folder-listing page GETs — never a delete. -/
theorem gdi_intraMove_none_calls (env : Gdi.GEnv) (src dest : WBPath)
    (h2 : dest.identifier = none) (c : Gdi.GCall)
    (hc : c ∈ (Gdi.intraMove env src dest).2) :
    c = .update (pyStr src.identifier) (pyStr dest.parentIdentifier)
      dest.wbName ∨ ∃ fid n, c = .folderPage fid n := by
  unfold Gdi.intraMove at hc
  simp only [h2, optStrFalsy, Bool.not_true, Bool.false_eq_true, if_false] at hc
  split at hc
  · simp at hc
    exact .inl hc
  · split at hc
    · rcases hfm : Gdi.folderMetadata env (dest.setLastId
          (some (env.moveResp (pyStr src.identifier)
            (pyStr dest.parentIdentifier) dest.wbName).2.id)) false
        with ⟨res, tr⟩
      rw [hfm] at hc
      cases res with
      | error e =>
        simp at hc
        rcases hc with hc | hc
        · exact .inl hc
        · have hmem : c ∈ (Gdi.folderMetadata env (dest.setLastId
              (some (env.moveResp (pyStr src.identifier)
                (pyStr dest.parentIdentifier) dest.wbName).2.id)) false).2 := by
            rw [hfm]
            exact hc
          exact .inr (gdi_folderMetadata_calls _ _ _ _ hmem)
      | ok children =>
        simp at hc
        rcases hc with hc | hc
        · exact .inl hc
        · have hmem : c ∈ (Gdi.folderMetadata env (dest.setLastId
              (some (env.moveResp (pyStr src.identifier)
                (pyStr dest.parentIdentifier) dest.wbName).2.id)) false).2 := by
            rw [hfm]
            exact hc
          exact .inr (gdi_folderMetadata_calls _ _ _ _ hmem)
    · simp at hc
      exact .inl hc

/-- C4 counterexample: Fedora's `intra_move` into a destination that
carries a resolved identifier issues no delete of the destination at all —
the MOVE request is the first backend call, refuting delete-before-move for
"every intra_move call". -/
theorem c4_fedora_no_destination_delete :
    WBPath.identifier destPathOld = some "destId" ∧
    (Fedora.intraMove baseFEnv "r" srcPathF destPathOld).2 =
      [.move "r//a" "r//b", .delete "r//a/fcr:tombstone",
       .head "r//b", .get "r//b/fcr:metadata"] ∧
    (∀ c ∈ (Fedora.intraMove baseFEnv "r" srcPathF destPathOld).2,
      c ≠ Fedora.FCall.delete "r//b") := by
  refine ⟨rfl, rfl, ?_⟩
  decide

/-- C4 (amended): for Google Drive institutions `intra_move`, a destination
with a (truthy) resolved identifier is deleted first and that delete
strictly precedes the move request, while a destination without an
identifier triggers no delete call; Fedora's `intra_move` instead issues
the MOVE as its very first backend call, so no destination delete ever
precedes it. -/
theorem c4_intra_move_delete_order (env : Gdi.GEnv) (src dest1 dest2 : WBPath)
    (did : String)
    (h1 : dest1.identifier = some did) (h1' : did ≠ "")
    (h1r : dest1.isRoot = false) (h1d : env.deleteStatus did = 200)
    (h2 : dest2.identifier = none)
    (fenv : Fedora.FEnv) (repo : String) (fsrc fdest : WBPath) :
    (∃ rest, (Gdi.intraMove env src dest1).2 =
      .deleteFile did :: .update (pyStr src.identifier)
        (pyStr dest1.parentIdentifier) dest1.wbName :: rest) ∧
    (∀ c ∈ (Gdi.intraMove env src dest2).2, ∀ s, c ≠ .deleteFile s) ∧
    (∃ rest, (Fedora.intraMove fenv repo fsrc fdest).2 =
      .move (Fedora.buildRepoUrl repo fsrc) (Fedora.buildRepoUrl repo fdest)
        :: rest) := by
  refine ⟨?_, ?_, ?_⟩
  · unfold Gdi.intraMove Gdi.delete
    have hdid : (did == "") = false := by simp [h1']
    simp only [h1, optStrFalsy, hdid, Bool.not_false, if_true, h1r,
               Bool.false_eq_true, if_false, pyStr, h1d, bne_self_eq_false]
    split
    · simp only [List.singleton_append, List.cons_append, List.nil_append]
      exact ⟨_, rfl⟩
    · split
      · split
        · simp only [List.singleton_append, List.cons_append, List.nil_append,
                     List.append_assoc]
          exact ⟨_, rfl⟩
        · simp only [List.singleton_append, List.cons_append, List.nil_append,
                     List.append_assoc]
          exact ⟨_, rfl⟩
      · simp only [List.singleton_append, List.cons_append, List.nil_append]
        exact ⟨_, rfl⟩
  · intro c hc s
    rcases gdi_intraMove_none_calls env src dest2 h2 c hc with hupd | ⟨fid, n, hpg⟩
    · subst hupd
      simp
    · subst hpg
      simp
  · unfold Fedora.intraMove
    dsimp only
    split
    · exact ⟨_, rfl⟩
    · split
      · exact ⟨_, rfl⟩
      · rcases hlm : Fedora.lookupFedoraMetadata fenv repo
            (Fedora.urlToPath repo (fenv.moveLoc (Fedora.buildRepoUrl repo fsrc)
              (Fedora.buildRepoUrl repo fdest))) with ⟨res, tr⟩
        cases res
        · exact ⟨_, rfl⟩
        · exact ⟨_, rfl⟩

/-- Witness for C4 at the concrete environments and paths. -/
theorem c4_intra_move_delete_order_witness :
    (∃ rest, (Gdi.intraMove baseGEnv srcPathA destPathOld).2 =
      .deleteFile "destId" :: .update (pyStr srcPathA.identifier)
        (pyStr destPathOld.parentIdentifier) destPathOld.wbName :: rest) ∧
    (∀ c ∈ (Gdi.intraMove baseGEnv srcPathA destPathNew).2, ∀ s,
      c ≠ .deleteFile s) ∧
    (∃ rest, (Fedora.intraMove baseFEnv "r" srcPathF destPathOld).2 =
      .move (Fedora.buildRepoUrl "r" srcPathF)
        (Fedora.buildRepoUrl "r" destPathOld) :: rest) := by
  have H := c4_intra_move_delete_order baseGEnv srcPathA destPathOld
    destPathNew "destId" rfl (by decide) rfl rfl rfl baseFEnv "r" srcPathF
    destPathOld
  exact ⟨H.1, H.2.1, H.2.2⟩
/-! ## C5 -/

theorem pyStr_some (s : String) : pyStr (some s) = s := rfl

/-- C5 counterexample: Fedora's `intra_copy` and `intra_move` return the
constant `True` as `created` even when the destination path already carries
a resolved identifier, refuting "`created` is true iff the destination had
no prior identifier". -/
theorem c5_fedora_created_always_true :
    WBPath.identifier destPathOld = some "destId" ∧
    Except.map (fun r => r.2) (Fedora.intraCopy baseFEnv "r" srcPathF destPathOld).1 =
      .ok true ∧
    Except.map (fun r => r.2) (Fedora.intraMove baseFEnv "r" srcPathF destPathOld).1 =
      .ok true := by
  exact ⟨rfl, rfl, rfl⟩

/-- C5 (amended): for Google Drive institutions, `intra_move` and
`intra_copy` return `created` true iff the destination had no prior
(strictly `None`) identifier; Fedora's `intra_move`/`intra_copy` return
`created = True` unconditionally. -/
theorem c5_created_iff_no_prior_identifier
    (env : Gdi.GEnv) (src dest1 dest2 : WBPath) (did : String)
    (h1 : dest1.identifier = some did) (h1' : did ≠ "")
    (h1r : dest1.isRoot = false) (h1d : env.deleteStatus did = 200)
    (h1f : dest1.isFolder = false)
    (h2 : dest2.identifier = none) (h2f : dest2.isFolder = false)
    (hmv1 : (env.moveResp (pyStr src.identifier) (pyStr dest1.parentIdentifier)
      dest1.wbName).1 = 200)
    (hmv2 : (env.moveResp (pyStr src.identifier) (pyStr dest2.parentIdentifier)
      dest2.wbName).1 = 200)
    (hcp1 : (env.copyResp (pyStr src.identifier) (pyStr dest1.parentIdentifier)
      dest1.wbName).1 = 200)
    (hcp2 : (env.copyResp (pyStr src.identifier) (pyStr dest2.parentIdentifier)
      dest2.wbName).1 = 200)
    (fenv : Fedora.FEnv) (repo : String) (fsrc fdest : WBPath)
    (md1 md2 : Fedora.FMeta)
    (hfc : fenv.copyStatus (Fedora.buildRepoUrl repo fsrc)
      (Fedora.buildRepoUrl repo fdest) = 201)
    (hfm : fenv.moveStatus (Fedora.buildRepoUrl repo fsrc)
      (Fedora.buildRepoUrl repo fdest) = 201)
    (hft : fenv.deleteStatus (Fedora.buildRepoUrl repo fsrc ++ "/fcr:tombstone")
      = 204)
    (hlk1 : (Fedora.lookupFedoraMetadata fenv repo (Fedora.urlToPath repo
      (fenv.copyLoc (Fedora.buildRepoUrl repo fsrc)
        (Fedora.buildRepoUrl repo fdest)))).1 = .ok md1)
    (hlk2 : (Fedora.lookupFedoraMetadata fenv repo (Fedora.urlToPath repo
      (fenv.moveLoc (Fedora.buildRepoUrl repo fsrc)
        (Fedora.buildRepoUrl repo fdest)))).1 = .ok md2) :
    (∃ m, (Gdi.intraMove env src dest1).1 = .ok (m, false)) ∧
    (∃ m, (Gdi.intraMove env src dest2).1 = .ok (m, true)) ∧
    (∃ m, (Gdi.intraCopy env src dest1).1 = .ok (m, false)) ∧
    (∃ m, (Gdi.intraCopy env src dest2).1 = .ok (m, true)) ∧
    (Fedora.intraCopy fenv repo fsrc fdest).1 = .ok (md1, true) ∧
    (Fedora.intraMove fenv repo fsrc fdest).1 = .ok (md2, true) := by
  have hdid : (did == "") = false := by simp [h1']
  refine ⟨?_, ?_, ?_, ?_, ?_, ?_⟩
  · unfold Gdi.intraMove Gdi.delete
    simp only [h1, optStrFalsy, hdid, Bool.not_false, if_true, h1r,
               Bool.false_eq_true, if_false, pyStr_some, h1d, bne_self_eq_false,
               hmv1, h1f]
    simp [hmv1]
  · unfold Gdi.intraMove
    simp only [h2, optStrFalsy, Bool.not_true, Bool.false_eq_true, if_false,
               hmv2, h2f]
    simp [hmv2]
  · unfold Gdi.intraCopy Gdi.delete
    simp only [h1, optStrFalsy, hdid, Bool.not_false, if_true, h1r,
               Bool.false_eq_true, if_false, pyStr_some, h1d, bne_self_eq_false,
               hcp1]
    simp [hcp1]
  · unfold Gdi.intraCopy
    simp only [h2, optStrFalsy, Bool.not_true, Bool.false_eq_true, if_false,
               hcp2]
    simp [hcp2]
  · unfold Fedora.intraCopy
    dsimp only
    simp only [hfc, bne_self_eq_false, Bool.false_eq_true, if_false]
    rcases hx : Fedora.lookupFedoraMetadata fenv repo (Fedora.urlToPath repo
      (fenv.copyLoc (Fedora.buildRepoUrl repo fsrc)
        (Fedora.buildRepoUrl repo fdest))) with ⟨res, tr⟩
    rw [hx] at hlk1
    simp at hlk1
    subst hlk1
    rfl
  · unfold Fedora.intraMove
    dsimp only
    simp only [hfm, hft, bne_self_eq_false, Bool.false_eq_true, if_false]
    rcases hx : Fedora.lookupFedoraMetadata fenv repo (Fedora.urlToPath repo
      (fenv.moveLoc (Fedora.buildRepoUrl repo fsrc)
        (Fedora.buildRepoUrl repo fdest))) with ⟨res, tr⟩
    rw [hx] at hlk2
    simp at hlk2
    subst hlk2
    rfl

/-- Witness for C5 at the concrete environments and paths. -/
theorem c5_created_iff_no_prior_identifier_witness :
    (∃ m, (Gdi.intraMove baseGEnv srcPathA destPathOld).1 = .ok (m, false)) ∧
    (∃ m, (Gdi.intraMove baseGEnv srcPathA destPathNew).1 = .ok (m, true)) ∧
    (Fedora.intraCopy baseFEnv "r" srcPathF destPathOld).1 =
      .ok (⟨false, "rawBody", "r//b", ⟨[⟨"", none⟩, ⟨"b", none⟩], false⟩⟩,
        true) := by
  have H := c5_created_iff_no_prior_identifier baseGEnv srcPathA destPathOld
    destPathNew "destId" rfl (by decide) rfl rfl rfl rfl rfl rfl rfl rfl rfl
    baseFEnv "r" srcPathF destPathOld
    ⟨false, "rawBody", "r//b", ⟨[⟨"", none⟩, ⟨"b", none⟩], false⟩⟩
    ⟨false, "rawBody", "r//b", ⟨[⟨"", none⟩, ⟨"b", none⟩], false⟩⟩
    rfl rfl rfl rfl rfl
  exact ⟨H.1, H.2.1, H.2.2.2.2.1⟩
/-! ## C6 -/

/-- When every child delete is acknowledged with 200, the child-deletion
loop succeeds and deletes exactly the listed children, in order. -/
theorem gdi_deleteChildrenLoop_ok (env : Gdi.GEnv) :
    ∀ (cs : List String), (∀ c ∈ cs, env.deleteStatus c = 200) →
      Gdi.deleteChildrenLoop env cs = (.ok (), cs.map .deleteFile)
  | [], _ => rfl
  | c :: cs, h => by
    have hc : env.deleteStatus c = 200 := h c (by simp)
    have ih := gdi_deleteChildrenLoop_ok env cs (fun d hd => h d (by simp [hd]))
    simp [Gdi.deleteChildrenLoop, hc, ih]

/-- C6 counterexample: Fedora's `delete` of the root path performs no root
check and no confirmation check — with `confirm_delete = 0` it succeeds and
issues backend DELETE calls for the root resource itself and its tombstone,
refuting "fails with a 400-class DeleteError before any backend call" for
every provider. -/
theorem c6_fedora_root_delete_unguarded :
    Fedora.delete baseFEnv "r" rootPathF 0 =
      (.ok (), [.delete "r/", .delete "r//fcr:tombstone"]) ∧
    Fedora.delete baseFEnv "r" rootPathF 1 =
      (.ok (), [.delete "r/", .delete "r//fcr:tombstone"]) := ⟨rfl, rfl⟩

/-- C6 (amended): Google Drive institutions implements the claim — root
delete with `confirm_delete ≠ 1` fails with `DeleteError` 400 and an empty
call trace, and with `confirm_delete = 1` deletes exactly the root's
children (never the root identifier itself).  RushFiles refuses root
deletion unconditionally (400, no backend calls) even when
`confirm_delete = 1`.  Fedora performs the delete of the root resource and
its tombstone without any check. -/
theorem c6_delete_root_semantics
    (env : Gdi.GEnv) (path : WBPath) (rid : String) (cs : List String)
    (h : path.identifier = some rid) (hs : rid ≠ "")
    (hroot : path.isRoot = true)
    (hcs : env.childIds rid = some cs)
    (hdel : ∀ c ∈ cs, env.deleteStatus c = 200)
    (hnc : rid ∉ cs)
    (renv : RushFiles.RfEnv) (rpath : WBPath) (sid : String)
    (hrp : rpath.identifier = some sid) (hrs : sid ≠ "")
    (hrroot : rpath.isRoot = true)
    (fenv : Fedora.FEnv) (repo : String) (fpath : WBPath)
    (hd1 : fenv.deleteStatus (Fedora.buildRepoUrl repo fpath) = 204)
    (hd2 : fenv.deleteStatus (Fedora.buildRepoUrl repo fpath ++ "/fcr:tombstone")
      = 204)
    (n m : Nat) (hn : n ≠ 1) :
    Gdi.delete env path n =
      (.error (.deleteErr
        "confirm_delete=1 is required for deleting root provider folder" 400),
       []) ∧
    Gdi.delete env path 1 = (.ok (), .listChildIds rid :: cs.map .deleteFile) ∧
    (∀ c ∈ (Gdi.delete env path 1).2, c ≠ .deleteFile rid) ∧
    RushFiles.delete renv rpath m =
      (.error (.deleteErr "root cannot be deleted" 400), []) ∧
    Fedora.delete fenv repo fpath m =
      (.ok (), [.delete (Fedora.buildRepoUrl repo fpath),
        .delete (Fedora.buildRepoUrl repo fpath ++ "/fcr:tombstone")]) := by
  have hsid : (rid == "") = false := by simp [hs]
  have hG1 : Gdi.delete env path 1 =
      (.ok (), .listChildIds rid :: cs.map .deleteFile) := by
    unfold Gdi.delete Gdi.deleteFolderContents
    simp only [h, optStrFalsy, hsid, Bool.not_false, if_true, hroot,
               Bool.false_eq_true, if_false, pyStr_some, hcs,
               gdi_deleteChildrenLoop_ok env cs hdel]
    simp
  refine ⟨?_, hG1, ?_, ?_, ?_⟩
  · unfold Gdi.delete
    simp only [h, optStrFalsy, hsid, Bool.not_false, if_true, hroot,
               Bool.false_eq_true, if_false]
    simp [hn]
  · intro c hc
    rw [hG1] at hc
    simp only [List.mem_cons] at hc
    rcases hc with rfl | hc
    · simp
    · simp only [List.mem_map] at hc
      obtain ⟨d, hd, rfl⟩ := hc
      simp only [ne_eq, Gdi.GCall.deleteFile.injEq]
      intro he
      exact hnc (he ▸ hd)
  · have hrsid : (sid == "") = false := by simp [hrs]
    unfold RushFiles.delete
    simp only [hrp, optStrFalsy, hrsid, Bool.not_false, if_true, hrroot,
               Bool.false_eq_true, if_false]
  · unfold Fedora.delete
    dsimp only
    simp only [hd1, hd2, bne_self_eq_false, Bool.false_eq_true, if_false]

/-- Witness for C6 at the concrete environments and paths. -/
theorem c6_delete_root_semantics_witness :
    Gdi.delete c6GEnv rootPathA 0 =
      (.error (.deleteErr
        "confirm_delete=1 is required for deleting root provider folder" 400),
       []) ∧
    Gdi.delete c6GEnv rootPathA 1 =
      (.ok (), [.listChildIds "rootA", .deleteFile "c1", .deleteFile "c2"]) ∧
    RushFiles.delete baseRfEnv rootPathA 1 =
      (.error (.deleteErr "root cannot be deleted" 400), []) := by
  have H := c6_delete_root_semantics c6GEnv rootPathA "rootA" ["c1", "c2"]
    rfl (by decide) rfl rfl (by decide) (by decide) baseRfEnv rootPathA
    "rootA" rfl (by decide) rfl baseFEnv "r" rootPathF rfl rfl 0 1 (by decide)
  exact ⟨H.1, H.2.1, H.2.2.2.1⟩
/-! ## C7 -/

/-- C7 counterexample: Fedora's `upload` performs no checksum verification.
With the PUT acknowledged as 201 and a backend-reported digest that differs
from the checksum of the streamed bytes, the upload still returns metadata
with no `UploadChecksumMismatchError`. -/
theorem c7_fedora_no_checksum_check :
    baseFEnv.putDigest (Fedora.buildRepoUrl "r" filePathF) = "backendDigest" ∧
    "localMd5x" ≠ "backendDigest" ∧
    Except.map (fun r => r.2)
      (Fedora.upload baseFEnv "r" filePathF "localMd5x").1 = .ok true := by
  exact ⟨rfl, by decide, rfl⟩

/-- C7 (amended): for Google Drive institutions uploads whose backend
write is acknowledged with 200, the operation fails with
`UploadChecksumMismatchError` exactly when the backend-reported
`md5Checksum` differs from the locally computed md5 of the streamed bytes,
and returns metadata when they agree; Fedora's upload returns metadata on
any acknowledged PUT with no checksum comparison at all. -/
theorem c7_upload_checksum_guard
    (env : Gdi.GEnv) (path : WBPath) (localMd5 : String)
    (hf : path.isFolder = false)
    (hst1 : (env.uploadLoc (optStrFalsy path.identifier)).1 = 200)
    (hst2 : (env.finishUploadResp
      (env.uploadLoc (optStrFalsy path.identifier)).2).1 = 200)
    (fenv : Fedora.FEnv) (repo : String) (fpath : WBPath) (flocal : String)
    (md : Fedora.FMeta)
    (hput : fenv.putStatus (Fedora.buildRepoUrl repo fpath) = 201)
    (hlk : (Fedora.lookupFedoraMetadata fenv repo fpath).1 = .ok md) :
    (((env.finishUploadResp
        (env.uploadLoc (optStrFalsy path.identifier)).2).2.md5Checksum ≠
          localMd5) →
      (Gdi.upload env path localMd5).1 = .error .uploadChecksumMismatch) ∧
    (((env.finishUploadResp
        (env.uploadLoc (optStrFalsy path.identifier)).2).2.md5Checksum =
          localMd5) →
      ∃ m cr, (Gdi.upload env path localMd5).1 = .ok (m, cr)) ∧
    (Fedora.upload fenv repo fpath flocal).1 = .ok (md, true) := by
  refine ⟨?_, ?_, ?_⟩
  · intro hne
    unfold Gdi.upload
    simp only [hf, Bool.false_eq_true, if_false, hst1, hst2,
               bne_self_eq_false]
    simp [hne]
  · intro heq
    unfold Gdi.upload
    simp only [hf, Bool.false_eq_true, if_false, hst1, hst2,
               bne_self_eq_false]
    simp [heq]
  · unfold Fedora.upload
    dsimp only
    simp only [hput, bne_self_eq_false, Bool.false_eq_true, if_false]
    rcases hx : Fedora.lookupFedoraMetadata fenv repo fpath with ⟨res, tr⟩
    rw [hx] at hlk
    simp at hlk
    subst hlk
    rfl

/-- Witness for C7 at the concrete environments and paths. -/
theorem c7_upload_checksum_guard_witness :
    (Gdi.upload c7GEnv filePathA "md5other").1 =
      .error .uploadChecksumMismatch ∧
    (Fedora.upload baseFEnv "r" filePathF "md5other").1 =
      .ok (⟨false, "rawBody", "r//f.txt", filePathF⟩, true) := by
  have H := c7_upload_checksum_guard c7GEnv filePathA "md5other" rfl rfl rfl
    baseFEnv "r" filePathF "md5other"
    ⟨false, "rawBody", "r//f.txt", filePathF⟩ rfl rfl
  exact ⟨H.1 (by decide), H.2.2⟩
/-! ## C8 -/

/-- C8: the synthetic sentinel revision the provider's docstrings promise
is unreachable.  At a backend that answers the revision listing with 403
(the caller cannot view history) and the full-fields file GET with 200,
`revisions` falls back to `metadata(path, raw=True)`, whose
`_file_metadata` raises `TypeError` at the metrics argument of provider.py
line 680 (`'ownedByMe:' + data['ownedByMe']` concatenates a `str` with a
JSON boolean; `data['canEdit']` would raise `KeyError` next, `canEdit`
being nested under `capabilities`) before the sentinel identifier can be
synthesized.  For the claim's second half, a sentinel-suffixed revision
still produces exactly the same outcome as no revision at all — both runs
raise that same `TypeError`. -/
theorem c8_revisions_sentinel_unreachable :
    (Gdi.revisions baseGEnv filePathA).1 = .error .typeErr ∧
    (Gdi.fileMetadata baseGEnv filePathA none false).1 = .error .typeErr ∧
    Gdi.fileMetadata baseGEnv filePathA
        (some ("abc" ++ Gdi.DRIVE_IGNORE_VERSION)) false =
      Gdi.fileMetadata baseGEnv filePathA none false := by
  exact ⟨rfl, rfl, rfl⟩

/-! ## C9 -/

/-- A two-segment path `/a/b` with slash-free `b` has no trailing slash. -/
theorem endsWithSlash_two_seg (a b : String) (hb : b ≠ "")
    (hsb : ∀ c ∈ b.toList, c ≠ '/') :
    endsWithSlash ("/" ++ a ++ "/" ++ b) = false := by
  obtain ⟨z, hz, hz'⟩ := getLast?_no_slash b.toList (toList_ne_nil b hb) hsb
  unfold endsWithSlash
  rw [show ("/" ++ a ++ "/" ++ b).toList =
    ('/' :: a.toList) ++ ('/' :: b.toList) by simp [String.toList]]
  rw [List.getLast?_append_of_ne_nil _ (by simp)]
  cases hbl : b.toList with
  | nil => exact absurd hbl (toList_ne_nil b hb)
  | cons y ys =>
    rw [hbl] at hz
    rw [List.getLast?_cons_cons, hz]
    simpa using hz'

/-- C9 counterexample: when an intermediate segment cannot be resolved,
the Google Drive institutions resolver raises `MetadataError` with code
404 — not `NotFoundError` as claimed — evaluated at the concrete backend
where the root folder has no children. -/
theorem c9_gdi_intermediate_miss_metadata_error :
    (Gdi.validatePath baseGEnv "root" "/a/b").1 =
      .error (.metadataErr "/a/b not found" 404) ∧
    (Gdi.validatePath baseGEnv "root" "/a/b").1 ≠
      .error (.notFound "/a/b") := by
  refine ⟨rfl, ?_⟩
  rw [show (Gdi.validatePath baseGEnv "root" "/a/b").1 =
    Except.error (.metadataErr "/a/b not found" 404) from rfl]
  simp

/-- C9 (amended): when a non-final segment has no matching child of the
current parent, RushFiles fails with `NotFoundError` carrying the original
path string, while Google Drive institutions fails with `MetadataError`
(code 404) whose message embeds the original path string. -/
theorem c9_intermediate_not_found
    (a b : String) (ha : a ≠ "") (hb : b ≠ "")
    (hsa : ∀ c ∈ a.toList, c ≠ '/') (hsb : ∀ c ∈ b.toList, c ≠ '/')
    (renv : RushFiles.RfEnv) (shareId : String) (L : List RushFiles.RfEntry)
    (hr1 : renv.children shareId = some L)
    (hr2 : RushFiles.searchInterId L a = none)
    (genv : Gdi.GEnv) (rootId : String)
    (hg : genv.searchChild rootId a (.plain true) = none) :
    (RushFiles.validatePath renv shareId ("/" ++ a ++ "/" ++ b)).1 =
      .error (.notFound ("/" ++ a ++ "/" ++ b)) ∧
    (Gdi.validatePath genv rootId ("/" ++ a ++ "/" ++ b)).1 =
      .error (.metadataErr (("/" ++ a ++ "/" ++ b) ++ " not found") 404) := by
  have hroot : ("/" ++ a ++ "/" ++ b) ≠ "/" := two_seg_ne_root a b
  have hstrip : stripSlashes (("/" ++ a ++ "/" ++ b).toList) =
      a.toList ++ '/' :: b.toList := by
    rw [show ("/" ++ a ++ "/" ++ b).toList =
      '/' :: (a.toList ++ '/' :: b.toList) by simp [String.toList]]
    exact stripSlashes_mid _ _ hsa hsb (toList_ne_nil a ha) (toList_ne_nil b hb)
  have hsplit : splitSegs (a.toList ++ '/' :: b.toList) =
      [a.toList, b.toList] := by
    rw [splitSegs_append_mid _ _ hsa, splitSegs_no_slash _ hsb]
  constructor
  · unfold RushFiles.validatePath
    rw [if_neg hroot]
    simp only [hstrip, hsplit, List.map, string_mk_toList,
               RushFiles.resolveLoop, hr1, hr2]
    simp
  · unfold Gdi.validatePath Gdi.resolvePathToIds
    rw [if_neg hroot]
    simp only [hstrip, hsplit, List.map, string_mk_toList,
               endsWithSlash_two_seg a b hb hsb, Bool.false_eq_true, if_false,
               Gdi.markLastAsFile, Gdi.resolveLoop, Bool.not_true,
               Bool.false_and, if_false, hg]
    simp

/-- Witness for C9 at the concrete environments: neither backend has a
child named `a` under the root. -/
theorem c9_intermediate_not_found_witness :
    (RushFiles.validatePath baseRfEnv "share1" ("/" ++ "a" ++ "/" ++ "b")).1 =
      .error (.notFound ("/" ++ "a" ++ "/" ++ "b")) ∧
    (Gdi.validatePath baseGEnv "root" ("/" ++ "a" ++ "/" ++ "b")).1 =
      .error (.metadataErr (("/" ++ "a" ++ "/" ++ "b") ++ " not found")
        404) := by
  exact c9_intermediate_not_found "a" "b" (by decide) (by decide) (by decide)
    (by decide) baseRfEnv "share1" [] rfl rfl baseGEnv "root" rfl

/-! ## C10 -/

/-- C10: `can_intra_copy` is true exactly when the other provider is the
same provider, a path is supplied, and it is a file — in particular it is
false for every folder path, so the gateway never invokes `intra_copy` on a
folder — while `can_intra_move` is the bare same-provider test with no
file/folder restriction. -/
theorem c10_can_intra_copy_files_only :
    (∀ (same : Bool) (p : Option WBPath),
      Gdi.canIntraCopy same p = true ↔
        same = true ∧ ∃ q, p = some q ∧ q.isFolder = false) ∧
    (∀ (same : Bool) (q : WBPath), q.isFolder = true →
      Gdi.canIntraCopy same (some q) = false) ∧
    (∀ (same : Bool) (p : Option WBPath), Gdi.canIntraMove same p = same) := by
  refine ⟨?_, ?_, ?_⟩
  · intro same p
    cases p with
    | none => simp [Gdi.canIntraCopy]
    | some q =>
      cases hq : q.isFolder <;> cases same <;> simp [Gdi.canIntraCopy, hq]
  · intro same q hq
    cases same <;> simp [Gdi.canIntraCopy, hq]
  · intro same p
    cases same <;> simp [Gdi.canIntraMove]

/-- Witness for C10: a folder path is refused by `can_intra_copy` even for
the same provider, a file path is accepted, and `can_intra_move` accepts
with no path at all. -/
theorem c10_can_intra_copy_files_only_witness :
    Gdi.canIntraCopy true (some rootPathA) = false ∧
    Gdi.canIntraCopy true (some filePathA) = true ∧
    Gdi.canIntraMove true none = true := by
  have H := c10_can_intra_copy_files_only
  exact ⟨H.2.1 true rootPathA rfl,
    (H.1 true (some filePathA)).mpr ⟨rfl, filePathA, rfl, rfl⟩,
    H.2.2 true none⟩
